import Mathlib

/-
  Verification development for the social-screenshot capture pipeline
  (repository source: src/unnamed/part_000, a Node.js command-line tool).

  The JavaScript source is shallowly embedded into Lean:
  - pure functions (escapeHtml, detectPlatform, generateFilename, formatNumber,
    the HTML template renderers) become Lean functions over String / List Char;
  - asynchronous, effectful code (imageToBase64, downloadImage, processUrl,
    processInParallel) becomes total Lean functions parameterized by explicit
    oracles for the network / browser / filesystem boundaries; a thrown or
    rejected JS error becomes an Except.error value, and resolving to null
    becomes Option.none;
  - JS template literals become explicit string concatenations, with the static
    template text kept verbatim (braces written using escape codes);
  - formatRelativeTime depends on the wall clock and locale date formatting, so
    renderers take it as an explicit function parameter named relTime.
-/

set_option maxRecDepth 100000
set_option linter.unusedVariables false
set_option maxHeartbeats 2000000

-- ===== Generic JS-flavoured helpers =====

/-- JS string-or-default: models the idiom `a || b` on strings, where the empty
string is the only falsy string value. -/
def jsOr (a b : String) : String := if a = "" then b else a

/-- Concatenation of a list of strings; models `Array.prototype.join('')`. -/
def joinAll : List String → String
  | [] => ""
  | s :: l => s ++ joinAll l

/-- Map with the running element index, starting at `k`; models
`array.map((x, index) => f x index)` shifted by an offset. -/
def mapIdxFrom (f : α → Nat → β) : List α → Nat → List β
  | [], _ => []
  | a :: l, k => f a k :: mapIdxFrom f l (k + 1)

/-- Number of occurrences of the character `c` in the string `s`. -/
def countChar (c : Char) (s : String) : Nat := s.data.count c

/-- Splitting a character list at every occurrence of `sep`; models
`String.prototype.split(sep)` for a one-character separator. -/
def jsSplit (sep : Char) : List Char → List (List Char)
  | [] => [[]]
  | c :: r =>
    if c = sep then [] :: jsSplit sep r
    else
      match jsSplit sep r with
      | [] => [[c]]
      | h :: t => (c :: h) :: t

/-- Does `pat` occur as a contiguous run inside `l`?  Models
`String.prototype.includes` on character lists. -/
def infixOf (pat : List Char) : List Char → Bool
  | [] => pat.isEmpty
  | c :: r => pat.isPrefixOf (c :: r) || infixOf pat r

/-- Models `s.includes(sub)` on strings. -/
def jsIncludes (s sub : String) : Bool := infixOf sub.data s.data

/-- ASCII lower-casing of a string; models `String.prototype.toLowerCase`
(the URLs the tool handles are ASCII). -/
def lowerStr (s : String) : String := ⟨s.data.map Char.toLower⟩

/-- Replace the first occurrence of `pat` in a character list by `rep`; models
`String.prototype.replace(pat, rep)` with a plain-string pattern. -/
def replaceOnceL (pat rep : List Char) : List Char → List Char
  | [] => []
  | c :: r =>
    if pat.isPrefixOf (c :: r) then rep ++ (c :: r).drop pat.length
    else c :: replaceOnceL pat rep r

/-- String wrapper for `replaceOnceL`. -/
def replaceOnce (s pat rep : String) : String := ⟨replaceOnceL pat.data rep.data s.data⟩

/-- POSIX path join; models `path.join(dir, name)` for a simple two-component
join on the platform the tool runs on. -/
def pathJoin (dir name : String) : String := dir ++ "/" ++ name

/-- Final path component; models `path.basename`. -/
def pathBasename (p : String) : String := ⟨(jsSplit '/' p.data).getLastD []⟩

-- ===== escapeHtml (src/unnamed/part_000 lines 2857-2865) =====

/-- The apostrophe character, written via its code point. -/
def aposChar : Char := Char.ofNat 39

/-- Expansion of one character under escapeHtml.  The source performs five
sequential global replaces (one per special character); since no replacement
string ever contains a character that a later pass rewrites, and earlier passes
never touch characters introduced by later ones, the composite is exactly this
character-wise expansion. -/
def escChar (c : Char) : List Char :=
  if c = '&' then "&amp;".data
  else if c = '<' then "&lt;".data
  else if c = '>' then "&gt;".data
  else if c = '"' then "&quot;".data
  else if c = aposChar then "&#039;".data
  else [c]

/-- Character-list form of escapeHtml. -/
def escapeHtmlL : List Char → List Char
  | [] => []
  | c :: l => escChar c ++ escapeHtmlL l

/-- Model of escapeHtml (lines 2857-2865).  The source returns the empty string
for falsy input; for a string argument the falsy case is exactly the empty
string, so the character-wise expansion already agrees with it. -/
def escapeHtml (s : String) : String := ⟨escapeHtmlL s.data⟩

/-- Checker that every ampersand in a character list begins one of the five
entity spellings emitted by escapeHtml. -/
def entityOk : List Char → Bool
  | [] => true
  | c :: r =>
    if c = '&' then
      match r with
      | 'a' :: 'm' :: 'p' :: ';' :: r' => entityOk r'
      | 'l' :: 't' :: ';' :: r' => entityOk r'
      | 'g' :: 't' :: ';' :: r' => entityOk r'
      | 'q' :: 'u' :: 'o' :: 't' :: ';' :: r' => entityOk r'
      | '#' :: '0' :: '3' :: '9' :: ';' :: r' => entityOk r'
      | _ => false
    else entityOk r

-- ===== detectPlatform (lines 373-405) =====

/-- One character of the regex class `[\w]`. -/
def isWordChar (c : Char) : Bool := c.isAlpha || c.isDigit || c = '_'

/-- After the literal `/@`, the regex `[\w]+\/\d+` must match: one or more word
characters, a slash, then a digit.  `seen` records whether at least one word
character has been consumed. -/
def wordRun (seen : Bool) : List Char → Bool
  | [] => false
  | c :: r =>
    if isWordChar c then wordRun true r
    else
      seen && c = '/' && (match r with | d :: _ => d.isDigit | [] => false)

/-- Does the Mastodon-style pattern `/@[\w]+\/\d+` match starting here? -/
def startsMastodon : List Char → Bool
  | '/' :: '@' :: r => wordRun false r
  | _ => false

/-- Does `urlLower.match(/\/@[\w]+\/\d+/)` succeed anywhere in the list? -/
def hasMastodonPath : List Char → Bool
  | [] => false
  | c :: r => startsMastodon (c :: r) || hasMastodonPath r

/-- Model of detectPlatform (lines 373-405).  The source falls through past the
Mastodon block when the host matches but the path regex does not, which the
conjunction in the corresponding branch reproduces. -/
def detectPlatform (url : String) : String :=
  let urlLower := lowerStr url
  if jsIncludes urlLower "x.com" || jsIncludes urlLower "twitter.com" then "twitter"
  else if jsIncludes urlLower "forums.macrumors.com" then "macrumors"
  else if jsIncludes urlLower "threads.net" then "threads"
  else if jsIncludes urlLower "bsky.app" then "bluesky"
  else if (jsIncludes urlLower "mastodon.social" || jsIncludes urlLower "zeppelin.flights"
            || jsIncludes urlLower "@") && hasMastodonPath urlLower.data then "mastodon"
  else if jsIncludes urlLower "youtube.com" || jsIncludes urlLower "youtu.be" then "youtube"
  else if jsIncludes urlLower "tiktok.com" then "tiktok"
  else if jsIncludes urlLower "cultofmac.com" || jsIncludes urlLower "newsletters." then "article"
  else "unknown"

-- ===== formatNumber (lines 249-255) =====

/-- One-decimal scaling used by formatNumber: `(n / unit).toFixed(1)` with the
trailing `.0` stripped, computed here with exact natural rounding to the
nearest tenth (the float computation of the source agrees at the magnitudes
involved except for representation ties). -/
def fmtScaled (n unit : Nat) (suffix : String) : String :=
  let tenths := (n * 10 + unit / 2) / unit
  Nat.repr (tenths / 10)
    ++ (if tenths % 10 = 0 then "" else "." ++ Nat.repr (tenths % 10)) ++ suffix

/-- Model of formatNumber (lines 249-255); the argument is the already-parsed
counter, so the inner parseInt is the identity, and `!num` holds exactly for 0. -/
def formatNumber (n : Nat) : String :=
  if n = 0 then "0"
  else if 1000000 ≤ n then fmtScaled n 1000000 "M"
  else if 1000 ≤ n then fmtScaled n 1000 "K"
  else Nat.repr n

-- ===== Normalized payload data model (shapes returned by the scrapers) =====

/-- Card width constant (line 23). -/
def CARD_WIDTH : Nat := 550

/-- Author record as the scrapers build it; each platform populates the subset
of fields its scraper produces, defaulting the rest. -/
structure Author where
  name : String := ""
  handle : String := ""
  title : String := ""
  avatar : Option String := none
  avatarUrl : String := ""
  verified : Bool := false
deriving Repr, DecidableEq

/-- Twitter metric counters (scrapeTwitter, lines 516-521). -/
structure TwMetrics where
  replies : Nat := 0
  retweets : Nat := 0
  likes : Nat := 0
  views : Option Nat := none
deriving Repr, DecidableEq

/-- Payload returned by scrapeTwitter (lines 503-523); also the shape rendered
for the Threads platform (scrapeThreads, lines 903-917, whose empty metrics
record renders identically to all-zero counters). -/
structure TwitterData where
  author : Author := {}
  content : String := ""
  images : List String := []
  originalImageUrls : List String := []
  timestamp : String := ""
  metrics : TwMetrics := {}
  url : String := ""
deriving Repr, DecidableEq

/-- One tweet of a reconstructed thread (scrapeTwitterThread, lines 617-631). -/
structure ThreadTweet where
  author : Author := {}
  content : String := ""
  images : List String := []
  originalImageUrls : List String := []
  timestamp : String := ""
  isMainTweet : Bool := false
deriving Repr, DecidableEq

/-- Payload returned by scrapeTwitterThread (lines 634-638). -/
structure ThreadData where
  tweets : List ThreadTweet := []
  url : String := ""
deriving Repr, DecidableEq

/-- Payload returned by scrapeMacrumors (lines 708-723). -/
structure MacrumorsData where
  author : Author := {}
  content : String := ""
  images : List String := []
  originalImageUrls : List String := []
  postNumber : String := ""
  timestamp : String := ""
  reactions : String := ""
  url : String := ""
deriving Repr, DecidableEq

/-- Bluesky metric counters (formatBlueskyPost, lines 810-814). -/
structure BsMetrics where
  replies : Nat := 0
  reposts : Nat := 0
  likes : Nat := 0
deriving Repr, DecidableEq

/-- Payload returned by formatBlueskyPost (lines 798-816). -/
structure BlueskyData where
  author : Author := {}
  content : String := ""
  images : List String := []
  originalImageUrls : List String := []
  timestamp : String := ""
  metrics : BsMetrics := {}
  url : String := ""
deriving Repr, DecidableEq

/-- Mastodon metric counters (scrapeMastodon, lines 875-879). -/
structure MsMetrics where
  replies : Nat := 0
  boosts : Nat := 0
  favorites : Nat := 0
deriving Repr, DecidableEq

/-- Payload returned by scrapeMastodon (lines 862-881). -/
structure MastodonData where
  instanceHost : String := ""
  author : Author := {}
  content : String := ""
  images : List String := []
  originalImageUrls : List String := []
  timestamp : String := ""
  metrics : MsMetrics := {}
  url : String := ""
deriving Repr, DecidableEq

/-- Payload returned by scrapeArticle (lines 945-956). -/
structure ArticleData where
  siteName : String := ""
  title : String := ""
  description : String := ""
  image : Option String := none
  imageUrl : String := ""
  originalImageUrls : List String := []
  favicon : Option String := none
  faviconUrl : String := ""
  url : String := ""
deriving Repr, DecidableEq

/-- Payload returned by scrapeYouTube (lines 1003-1022) and scrapeTikTok
(lines 1065-1083); both renderers read the same projection of it. -/
structure VideoData where
  author : Author := {}
  title : String := ""
  description : String := ""
  thumbnail : Option String := none
  thumbnailUrl : String := ""
  originalImageUrls : List String := []
  url : String := ""
deriving Repr, DecidableEq

-- ===== Template renderers (translated from src/unnamed/part_000) =====

/-- Static template text (verbatim from the source template literal). -/
def twI0 : String := "\n    <div class=\"images "

/-- Static template text (verbatim from the source template literal). -/
def twI1 : String := "\">\n      "

/-- Static template text (verbatim from the source template literal). -/
def twI2 : String := "\n    </div>\n  "

/-- Static verified-badge SVG markup (verbatim from the source). -/
def twV : String := "\n    <svg class=\"verified\" viewBox=\"0 0 22 22\" width=\"18\" height=\"18\">\n      <path fill=\"#1D9BF0\" d=\"M20.396 11c-.018-.646-.215-1.275-.57-1.816-.354-.54-.852-.972-1.438-1.246.223-.607.27-1.264.14-1.897-.131-.634-.437-1.218-.882-1.687-.47-.445-1.053-.75-1.687-.882-.633-.13-1.29-.083-1.897.14-.273-.587-.704-1.086-1.245-1.44S11.647 1.62 11 1.604c-.646.017-1.273.213-1.813.568s-.969.854-1.24 1.44c-.608-.223-1.267-.272-1.902-.14-.635.13-1.22.436-1.69.882-.445.47-.749 1.055-.878 1.688-.13.633-.08 1.29.144 1.896-.587.274-1.087.705-1.443 1.245-.356.54-.555 1.17-.574 1.817.02.647.218 1.276.574 1.817.356.54.856.972 1.443 1.245-.224.606-.274 1.263-.144 1.896.13.634.433 1.218.877 1.688.47.443 1.054.747 1.687.878.633.132 1.29.084 1.897-.136.274.586.705 1.084 1.246 1.439.54.354 1.17.551 1.816.569.647-.016 1.276-.213 1.817-.567s.972-.854 1.245-1.44c.604.239 1.266.296 1.903.164.636-.132 1.22-.447 1.68-.907.46-.46.776-1.044.908-1.681.132-.637.075-1.299-.165-1.903.586-.274 1.084-.705 1.439-1.246.354-.54.551-1.17.569-1.816zM9.662 14.85l-3.429-3.428 1.293-1.302 2.072 2.072 4.4-4.794 1.347 1.246z\"/>\n    </svg>\n  "

/-- Static template text (verbatim from the source template literal). -/
def twM0 : String := "\n    <!DOCTYPE html>\n    <html>\n    <head>\n      <meta charset=\"UTF-8\">\n      <style>\n        * \x7b margin: 0; padding: 0; box-sizing: border-box; \x7d\n        body \x7b\n          font-family: -apple-system, BlinkMacSystemFont, \"Segoe UI\", Roboto, Helvetica, Arial, sans-serif;\n          background: #000;\n          padding: 20px;\n        \x7d\n        .card \x7b\n          background: #16181c;\n          border-radius: 16px;\n          padding: 16px;\n          max-width: "

/-- Static template text (verbatim from the source template literal). -/
def twM1 : String := "px;\n          border: 1px solid #2f3336;\n        \x7d\n        .header \x7b\n          display: flex;\n          align-items: flex-start;\n          margin-bottom: 12px;\n        \x7d\n        .avatar \x7b\n          width: 48px;\n          height: 48px;\n          border-radius: 50%;\n          margin-right: 12px;\n          object-fit: cover;\n        \x7d\n        .author-info \x7b\n          flex: 1;\n        \x7d\n        .author-name \x7b\n          display: flex;\n          align-items: center;\n          gap: 4px;\n        \x7d\n        .name \x7b\n          color: #e7e9ea;\n          font-weight: 700;\n          font-size: 15px;\n        \x7d\n        .verified \x7b\n          flex-shrink: 0;\n        \x7d\n        .handle \x7b\n          color: #71767b;\n          font-size: 15px;\n        \x7d\n        .time \x7b\n          color: #71767b;\n          font-size: 15px;\n        \x7d\n        .content \x7b\n          color: #e7e9ea;\n          font-size: 15px;\n          line-height: 1.4;\n          margin-bottom: 12px;\n          white-space: pre-wrap;\n          word-wrap: break-word;\n        \x7d\n        .images \x7b\n          border-radius: 16px;\n          overflow: hidden;\n          margin-bottom: 12px;\n        \x7d\n        .images.grid \x7b\n          display: grid;\n          grid-template-columns: repeat(2, 1fr);\n          gap: 2px;\n        \x7d\n        .images img \x7b\n          width: 100%;\n          display: block;\n          max-height: 300px;\n          object-fit: cover;\n        \x7d\n        .metrics \x7b\n          display: flex;\n          justify-content: space-between;\n          color: #71767b;\n          font-size: 13px;\n          padding-top: 12px;\n          border-top: 1px solid #2f3336;\n        \x7d\n        .metric \x7b\n          display: flex;\n          align-items: center;\n          gap: 6px;\n        \x7d\n        .metric svg \x7b\n          width: 18px;\n          height: 18px;\n          fill: #71767b;\n        \x7d\n      </style>\n    </head>\n    <body>\n      <div class=\"card\">\n        <div class=\"header\">\n          "

/-- Static template text (verbatim from the source template literal). -/
def twM2 : String := "\n          <div class=\"author-info\">\n            <div class=\"author-name\">\n              <span class=\"name\">"

/-- Static template text (verbatim from the source template literal). -/
def twM3 : String := "</span>\n              "

/-- Static template text (verbatim from the source template literal). -/
def twM4 : String := "\n            </div>\n            <div class=\"handle\">@"

/-- Static template text (verbatim from the source template literal). -/
def twM5 : String := " · "

/-- Static template text (verbatim from the source template literal). -/
def twM6 : String := "</div>\n          </div>\n        </div>\n        <div class=\"content\">"

/-- Static template text (verbatim from the source template literal). -/
def twM7 : String := "</div>\n        "

/-- Static template text (verbatim from the source template literal). -/
def twM8 : String := "\n        <div class=\"metrics\">\n          <div class=\"metric\">\n            <svg viewBox=\"0 0 24 24\"><path d=\"M1.751 10c0-4.42 3.584-8 8.005-8h4.366c4.49 0 8.129 3.64 8.129 8.13 0 2.96-1.607 5.68-4.196 7.11l-8.054 4.46v-3.69h-.067c-4.49.1-8.183-3.51-8.183-8.01zm8.005-6c-3.317 0-6.005 2.69-6.005 6 0 3.37 2.77 6.08 6.138 6.01l.351-.01h1.761v2.3l5.087-2.81c1.951-1.08 3.163-3.13 3.163-5.36 0-3.39-2.744-6.13-6.129-6.13H9.756z\"/></svg>\n            <span>"

/-- Static template text (verbatim from the source template literal). -/
def twM9 : String := "</span>\n          </div>\n          <div class=\"metric\">\n            <svg viewBox=\"0 0 24 24\"><path d=\"M4.5 3.88l4.432 4.14-1.364 1.46L5.5 7.55V16c0 1.1.896 2 2 2H13v2H7.5c-2.209 0-4-1.79-4-4V7.55L1.432 9.48.068 8.02 4.5 3.88zM16.5 6H11V4h5.5c2.209 0 4 1.79 4 4v8.45l2.068-1.93 1.364 1.46-4.432 4.14-4.432-4.14 1.364-1.46 2.068 1.93V8c0-1.1-.896-2-2-2z\"/></svg>\n            <span>"

/-- Static template text (verbatim from the source template literal). -/
def twM10 : String := "</span>\n          </div>\n          <div class=\"metric\">\n            <svg viewBox=\"0 0 24 24\"><path d=\"M16.697 5.5c-1.222-.06-2.679.51-3.89 2.16l-.805 1.09-.806-1.09C9.984 6.01 8.526 5.44 7.304 5.5c-1.243.07-2.349.78-2.91 1.91-.552 1.12-.633 2.78.479 4.82 1.074 1.97 3.257 4.27 7.129 6.61 3.87-2.34 6.052-4.64 7.126-6.61 1.111-2.04 1.03-3.7.477-4.82-.561-1.13-1.666-1.84-2.908-1.91zm4.187 7.69c-1.351 2.48-4.001 5.12-8.379 7.67l-.503.3-.504-.3c-4.379-2.55-7.029-5.19-8.382-7.67-1.36-2.5-1.41-4.86-.514-6.67.887-1.79 2.647-2.91 4.601-3.01 1.651-.09 3.368.56 4.798 2.01 1.429-1.45 3.146-2.1 4.796-2.01 1.954.1 3.714 1.22 4.601 3.01.896 1.81.846 4.17-.514 6.67z\"/></svg>\n            <span>"

/-- Static template text (verbatim from the source template literal). -/
def twM11 : String := "</span>\n          </div>\n          "

/-- Static template text (verbatim from the source template literal). -/
def twM12 : String := "\n        </div>\n      </div>\n    </body>\n    </html>\n  "

/-- Model of renderTwitterCard (src/unnamed/part_000 lines 1093-1243). -/
def renderTwitterCard (relTime : String → String) (d : TwitterData) : String :=
  let imagesHtml := if 0 < d.images.length then
      twI0 ++
    ((if 1 < d.images.length then "grid" else "")) ++
    twI1 ++
    (joinAll (d.images.map (fun img => "<img src=\"" ++ img ++ "\" alt=\"Tweet image\">"))) ++
    twI2
    else ""
  let verifiedBadge := if d.author.verified then twV else ""
  twM0 ++
    (Nat.repr CARD_WIDTH) ++
    twM1 ++
    ((match d.author.avatar with | some av => "<img class=\"avatar\" src=\"" ++ (av) ++ "\" alt=\"Avatar\">" | none => "<div class=\"avatar\" style=\"background:#2f3336;\"></div>")) ++
    twM2 ++
    (escapeHtml d.author.name) ++
    twM3 ++
    (verifiedBadge) ++
    twM4 ++
    (escapeHtml d.author.handle) ++
    twM5 ++
    (relTime d.timestamp) ++
    twM6 ++
    (escapeHtml d.content) ++
    twM7 ++
    (imagesHtml) ++
    twM8 ++
    (formatNumber d.metrics.replies) ++
    twM9 ++
    (formatNumber d.metrics.retweets) ++
    twM10 ++
    (formatNumber d.metrics.likes) ++
    twM11 ++
    ((match d.metrics.views with | some v => if v = 0 then "" else "\n            <div class=\"metric\">\n              <svg viewBox=\"0 0 24 24\"><path d=\"M8.75 21V3h2v18h-2zM18 21V8.5h2V21h-2zM4 21l.004-10h2L6 21H4zm9.248 0v-7h2v7h-2z\"/></svg>\n              <span>" ++ (formatNumber v) ++ "</span>\n            </div>\n          " | none => "")) ++
    twM12

/-- Static template text (verbatim from the source template literal). -/
def mrI0 : String := "\n    <div class=\"images\">\n      "

/-- Static template text (verbatim from the source template literal). -/
def mrI1 : String := "\n    </div>\n  "

/-- Static template text (verbatim from the source template literal). -/
def mrM0 : String := "\n    <!DOCTYPE html>\n    <html>\n    <head>\n      <meta charset=\"UTF-8\">\n      <style>\n        * \x7b margin: 0; padding: 0; box-sizing: border-box; \x7d\n        body \x7b\n          font-family: -apple-system, BlinkMacSystemFont, \"Segoe UI\", Roboto, Helvetica, Arial, sans-serif;\n          background: #000;\n          padding: 20px;\n        \x7d\n        .card \x7b\n          background: #fff;\n          border-radius: 12px;\n          overflow: hidden;\n          max-width: "

/-- Static template text (verbatim from the source template literal). -/
def mrM1 : String := "px;\n          display: flex;\n        \x7d\n        .sidebar \x7b\n          background: #f8f9fa;\n          padding: 16px;\n          text-align: center;\n          min-width: 100px;\n          border-right: 1px solid #e9ecef;\n        \x7d\n        .avatar \x7b\n          width: 64px;\n          height: 64px;\n          border-radius: 50%;\n          margin-bottom: 8px;\n          object-fit: cover;\n        \x7d\n        .author-name \x7b\n          color: #0066cc;\n          font-weight: 600;\n          font-size: 14px;\n          margin-bottom: 4px;\n        \x7d\n        .author-title \x7b\n          color: #6c757d;\n          font-size: 12px;\n        \x7d\n        .main \x7b\n          flex: 1;\n          padding: 16px;\n        \x7d\n        .post-header \x7b\n          display: flex;\n          justify-content: space-between;\n          align-items: center;\n          margin-bottom: 12px;\n          padding-bottom: 8px;\n          border-bottom: 1px solid #e9ecef;\n        \x7d\n        .timestamp \x7b\n          color: #6c757d;\n          font-size: 12px;\n        \x7d\n        .post-number \x7b\n          background: #0066cc;\n          color: white;\n          padding: 2px 8px;\n          border-radius: 4px;\n          font-size: 12px;\n          font-weight: 600;\n        \x7d\n        .content \x7b\n          color: #212529;\n          font-size: 14px;\n          line-height: 1.5;\n        \x7d\n        .images \x7b\n          margin-top: 12px;\n        \x7d\n        .images img \x7b\n          max-width: 100%;\n          border-radius: 8px;\n          margin-bottom: 8px;\n        \x7d\n        .reactions \x7b\n          margin-top: 12px;\n          color: #6c757d;\n          font-size: 12px;\n        \x7d\n        .arrow-btn \x7b\n          position: absolute;\n          right: 16px;\n          bottom: 16px;\n          width: 32px;\n          height: 32px;\n          background: #0066cc;\n          border-radius: 50%;\n          display: flex;\n          align-items: center;\n          justify-content: center;\n        \x7d\n        .arrow-btn svg \x7b\n          fill: white;\n          width: 16px;\n          height: 16px;\n        \x7d\n      </style>\n    </head>\n    <body>\n      <div class=\"card\">\n        <div class=\"sidebar\">\n          "

/-- Static template text (verbatim from the source template literal). -/
def mrM2 : String := "\n          <div class=\"author-name\">"

/-- Static template text (verbatim from the source template literal). -/
def mrM3 : String := "</div>\n          <div class=\"author-title\">"

/-- Static template text (verbatim from the source template literal). -/
def mrM4 : String := "</div>\n        </div>\n        <div class=\"main\">\n          <div class=\"post-header\">\n            <span class=\"timestamp\">"

/-- Static template text (verbatim from the source template literal). -/
def mrM5 : String := "</span>\n            "

/-- Static template text (verbatim from the source template literal). -/
def mrM6 : String := "\n          </div>\n          <div class=\"content\">"

/-- Static template text (verbatim from the source template literal). -/
def mrM7 : String := "</div>\n          "

/-- Static template text (verbatim from the source template literal). -/
def mrM8 : String := "\n          "

/-- Static template text (verbatim from the source template literal). -/
def mrM9 : String := "\n        </div>\n      </div>\n    </body>\n    </html>\n  "

/-- Model of renderMacrumorsCard (lines 1396-1527). Note: postNumber is interpolated without escapeHtml, exactly as in the source. -/
def renderMacrumorsCard (relTime : String → String) (d : MacrumorsData) : String :=
  let imagesHtml := if 0 < d.images.length then
      mrI0 ++
    (joinAll (d.images.map (fun img => "<img src=\"" ++ img ++ "\" alt=\"Post image\">"))) ++
    mrI1
    else ""
  mrM0 ++
    (Nat.repr CARD_WIDTH) ++
    mrM1 ++
    ((match d.author.avatar with | some av => "<img class=\"avatar\" src=\"" ++ (av) ++ "\" alt=\"Avatar\">" | none => "<div class=\"avatar\" style=\"background:#e9ecef;\"></div>")) ++
    mrM2 ++
    (escapeHtml d.author.name) ++
    mrM3 ++
    (escapeHtml (jsOr d.author.title "member")) ++
    mrM4 ++
    (relTime d.timestamp) ++
    mrM5 ++
    ((if d.postNumber = "" then "" else "<span class=\"post-number\">#" ++ (d.postNumber) ++ "</span>")) ++
    mrM6 ++
    (escapeHtml d.content) ++
    mrM7 ++
    (imagesHtml) ++
    mrM8 ++
    ((if d.reactions = "" then "" else "<div class=\"reactions\">" ++ (escapeHtml d.reactions) ++ "</div>")) ++
    mrM9

/-- Static template text (verbatim from the source template literal). -/
def bsI0 : String := "\n    <div class=\"images "

/-- Static template text (verbatim from the source template literal). -/
def bsI1 : String := "\">\n      "

/-- Static template text (verbatim from the source template literal). -/
def bsI2 : String := "\n    </div>\n  "

/-- Static template text (verbatim from the source template literal). -/
def bsM0 : String := "\n    <!DOCTYPE html>\n    <html>\n    <head>\n      <meta charset=\"UTF-8\">\n      <style>\n        * \x7b margin: 0; padding: 0; box-sizing: border-box; \x7d\n        body \x7b\n          font-family: -apple-system, BlinkMacSystemFont, \"Segoe UI\", Roboto, Helvetica, Arial, sans-serif;\n          background: #000;\n          padding: 20px;\n        \x7d\n        .card \x7b\n          background: #161e27;\n          border-radius: 12px;\n          padding: 16px;\n          max-width: "

/-- Static template text (verbatim from the source template literal). -/
def bsM1 : String := "px;\n          border: 1px solid #2a3f54;\n        \x7d\n        .header \x7b\n          display: flex;\n          align-items: center;\n          margin-bottom: 12px;\n        \x7d\n        .avatar \x7b\n          width: 44px;\n          height: 44px;\n          border-radius: 50%;\n          margin-right: 12px;\n          object-fit: cover;\n        \x7d\n        .author-info \x7b flex: 1; \x7d\n        .name \x7b\n          color: #fff;\n          font-weight: 600;\n          font-size: 15px;\n        \x7d\n        .handle \x7b\n          color: #7b8d9d;\n          font-size: 14px;\n        \x7d\n        .content \x7b\n          color: #fff;\n          font-size: 15px;\n          line-height: 1.4;\n          margin-bottom: 12px;\n          white-space: pre-wrap;\n        \x7d\n        .images \x7b\n          border-radius: 12px;\n          overflow: hidden;\n          margin-bottom: 12px;\n        \x7d\n        .images.grid \x7b\n          display: grid;\n          grid-template-columns: repeat(2, 1fr);\n          gap: 2px;\n        \x7d\n        .images img \x7b\n          width: 100%;\n          display: block;\n          max-height: 280px;\n          object-fit: cover;\n        \x7d\n        .metrics \x7b\n          display: flex;\n          gap: 24px;\n          color: #7b8d9d;\n          font-size: 13px;\n        \x7d\n        .metric \x7b\n          display: flex;\n          align-items: center;\n          gap: 6px;\n        \x7d\n        .timestamp \x7b\n          color: #7b8d9d;\n          font-size: 13px;\n          margin-top: 8px;\n        \x7d\n      </style>\n    </head>\n    <body>\n      <div class=\"card\">\n        <div class=\"header\">\n          "

/-- Static template text (verbatim from the source template literal). -/
def bsM2 : String := "\n          <div class=\"author-info\">\n            <div class=\"name\">"

/-- Static template text (verbatim from the source template literal). -/
def bsM3 : String := "</div>\n            <div class=\"handle\">@"

/-- Static template text (verbatim from the source template literal). -/
def bsM4 : String := "</div>\n          </div>\n        </div>\n        <div class=\"content\">"

/-- Static template text (verbatim from the source template literal). -/
def bsM5 : String := "</div>\n        "

/-- Static template text (verbatim from the source template literal). -/
def bsM6 : String := "\n        <div class=\"metrics\">\n          <span class=\"metric\">💬 "

/-- Static template text (verbatim from the source template literal). -/
def bsM7 : String := "</span>\n          <span class=\"metric\">🔄 "

/-- Static template text (verbatim from the source template literal). -/
def bsM8 : String := "</span>\n          <span class=\"metric\">❤️ "

/-- Static template text (verbatim from the source template literal). -/
def bsM9 : String := "</span>\n        </div>\n        <div class=\"timestamp\">"

/-- Static template text (verbatim from the source template literal). -/
def bsM10 : String := "</div>\n      </div>\n    </body>\n    </html>\n  "

/-- Model of renderBlueskyCard (lines 1532-1642). -/
def renderBlueskyCard (relTime : String → String) (d : BlueskyData) : String :=
  let imagesHtml := if 0 < d.images.length then
      bsI0 ++
    ((if 1 < d.images.length then "grid" else "")) ++
    bsI1 ++
    (joinAll (d.images.map (fun img => "<img src=\"" ++ img ++ "\" alt=\"Post image\">"))) ++
    bsI2
    else ""
  bsM0 ++
    (Nat.repr CARD_WIDTH) ++
    bsM1 ++
    ((match d.author.avatar with | some av => "<img class=\"avatar\" src=\"" ++ (av) ++ "\" alt=\"Avatar\">" | none => "<div class=\"avatar\" style=\"background:#2a3f54;\"></div>")) ++
    bsM2 ++
    (escapeHtml d.author.name) ++
    bsM3 ++
    (escapeHtml d.author.handle) ++
    bsM4 ++
    (escapeHtml d.content) ++
    bsM5 ++
    (imagesHtml) ++
    bsM6 ++
    (formatNumber d.metrics.replies) ++
    bsM7 ++
    (formatNumber d.metrics.reposts) ++
    bsM8 ++
    (formatNumber d.metrics.likes) ++
    bsM9 ++
    (relTime d.timestamp) ++
    bsM10

/-- Static template text (verbatim from the source template literal). -/
def msI0 : String := "\n    <div class=\"images "

/-- Static template text (verbatim from the source template literal). -/
def msI1 : String := "\">\n      "

/-- Static template text (verbatim from the source template literal). -/
def msI2 : String := "\n    </div>\n  "

/-- Static template text (verbatim from the source template literal). -/
def msM0 : String := "\n    <!DOCTYPE html>\n    <html>\n    <head>\n      <meta charset=\"UTF-8\">\n      <style>\n        * \x7b margin: 0; padding: 0; box-sizing: border-box; \x7d\n        body \x7b\n          font-family: -apple-system, BlinkMacSystemFont, \"Segoe UI\", Roboto, Helvetica, Arial, sans-serif;\n          background: #000;\n          padding: 20px;\n        \x7d\n        .card \x7b\n          background: #282c37;\n          border-radius: 8px;\n          padding: 16px;\n          max-width: "

/-- Static template text (verbatim from the source template literal). -/
def msM1 : String := "px;\n        \x7d\n        .header \x7b\n          display: flex;\n          align-items: center;\n          margin-bottom: 12px;\n        \x7d\n        .avatar \x7b\n          width: 46px;\n          height: 46px;\n          border-radius: 8px;\n          margin-right: 12px;\n          object-fit: cover;\n        \x7d\n        .author-info \x7b flex: 1; \x7d\n        .name \x7b\n          color: #fff;\n          font-weight: 600;\n          font-size: 15px;\n        \x7d\n        .handle \x7b\n          color: #9baec8;\n          font-size: 14px;\n        \x7d\n        .content \x7b\n          color: #fff;\n          font-size: 15px;\n          line-height: 1.5;\n          margin-bottom: 12px;\n        \x7d\n        .images \x7b\n          border-radius: 8px;\n          overflow: hidden;\n          margin-bottom: 12px;\n        \x7d\n        .images.grid \x7b\n          display: grid;\n          grid-template-columns: repeat(2, 1fr);\n          gap: 2px;\n        \x7d\n        .images img \x7b\n          width: 100%;\n          display: block;\n          max-height: 280px;\n          object-fit: cover;\n        \x7d\n        .metrics \x7b\n          display: flex;\n          gap: 20px;\n          color: #9baec8;\n          font-size: 14px;\n          padding-top: 12px;\n          border-top: 1px solid #393f4f;\n        \x7d\n        .metric \x7b\n          display: flex;\n          align-items: center;\n          gap: 6px;\n        \x7d\n      </style>\n    </head>\n    <body>\n      <div class=\"card\">\n        <div class=\"header\">\n          "

/-- Static template text (verbatim from the source template literal). -/
def msM2 : String := "\n          <div class=\"author-info\">\n            <div class=\"name\">"

/-- Static template text (verbatim from the source template literal). -/
def msM3 : String := "</div>\n            <div class=\"handle\">"

/-- Static template text (verbatim from the source template literal). -/
def msM4 : String := "</div>\n          </div>\n        </div>\n        <div class=\"content\">"

/-- Static template text (verbatim from the source template literal). -/
def msM5 : String := "</div>\n        "

/-- Static template text (verbatim from the source template literal). -/
def msM6 : String := "\n        <div class=\"metrics\">\n          <span class=\"metric\">💬 "

/-- Static template text (verbatim from the source template literal). -/
def msM7 : String := "</span>\n          <span class=\"metric\">🔁 "

/-- Static template text (verbatim from the source template literal). -/
def msM8 : String := "</span>\n          <span class=\"metric\">⭐ "

/-- Static template text (verbatim from the source template literal). -/
def msM9 : String := "</span>\n        </div>\n      </div>\n    </body>\n    </html>\n  "

/-- Model of renderMastodonCard (lines 1647-1751). -/
def renderMastodonCard (relTime : String → String) (d : MastodonData) : String :=
  let imagesHtml := if 0 < d.images.length then
      msI0 ++
    ((if 1 < d.images.length then "grid" else "")) ++
    msI1 ++
    (joinAll (d.images.map (fun img => "<img src=\"" ++ img ++ "\" alt=\"Post image\">"))) ++
    msI2
    else ""
  msM0 ++
    (Nat.repr CARD_WIDTH) ++
    msM1 ++
    ((match d.author.avatar with | some av => "<img class=\"avatar\" src=\"" ++ (av) ++ "\" alt=\"Avatar\">" | none => "<div class=\"avatar\" style=\"background:#393f4f;\"></div>")) ++
    msM2 ++
    (escapeHtml d.author.name) ++
    msM3 ++
    (escapeHtml d.author.handle) ++
    msM4 ++
    (escapeHtml d.content) ++
    msM5 ++
    (imagesHtml) ++
    msM6 ++
    (formatNumber d.metrics.replies) ++
    msM7 ++
    (formatNumber d.metrics.boosts) ++
    msM8 ++
    (formatNumber d.metrics.favorites) ++
    msM9

/-- Static template text (verbatim from the source template literal). -/
def arM0 : String := "\n    <!DOCTYPE html>\n    <html>\n    <head>\n      <meta charset=\"UTF-8\">\n      <style>\n        * \x7b margin: 0; padding: 0; box-sizing: border-box; \x7d\n        body \x7b\n          font-family: -apple-system, BlinkMacSystemFont, \"Segoe UI\", Roboto, Helvetica, Arial, sans-serif;\n          background: #000;\n          padding: 20px;\n        \x7d\n        .card \x7b\n          background: #fff;\n          border-radius: 12px;\n          overflow: hidden;\n          max-width: "

/-- Static template text (verbatim from the source template literal). -/
def arM1 : String := "px;\n        \x7d\n        .image \x7b\n          width: 100%;\n          height: 200px;\n          object-fit: cover;\n        \x7d\n        .content \x7b\n          padding: 16px;\n        \x7d\n        .site \x7b\n          display: flex;\n          align-items: center;\n          gap: 8px;\n          margin-bottom: 8px;\n        \x7d\n        .favicon \x7b\n          width: 20px;\n          height: 20px;\n          border-radius: 4px;\n        \x7d\n        .site-name \x7b\n          color: #6c757d;\n          font-size: 13px;\n        \x7d\n        .title \x7b\n          color: #212529;\n          font-size: 18px;\n          font-weight: 600;\n          line-height: 1.3;\n          margin-bottom: 8px;\n        \x7d\n        .description \x7b\n          color: #6c757d;\n          font-size: 14px;\n          line-height: 1.4;\n        \x7d\n      </style>\n    </head>\n    <body>\n      <div class=\"card\">\n        "

/-- Static template text (verbatim from the source template literal). -/
def arM2 : String := "\n        <div class=\"content\">\n          <div class=\"site\">\n            "

/-- Static template text (verbatim from the source template literal). -/
def arM3 : String := "\n            <span class=\"site-name\">"

/-- Static template text (verbatim from the source template literal). -/
def arM4 : String := "</span>\n          </div>\n          <div class=\"title\">"

/-- Static template text (verbatim from the source template literal). -/
def arM5 : String := "</div>\n          <div class=\"description\">"

/-- Static template text (verbatim from the source template literal). -/
def arM6 : String := "</div>\n        </div>\n      </div>\n    </body>\n    </html>\n  "

/-- Model of renderArticleCard (lines 1756-1827). -/
def renderArticleCard (relTime : String → String) (d : ArticleData) : String :=
  arM0 ++
    (Nat.repr CARD_WIDTH) ++
    arM1 ++
    ((match d.image with | some im => "<img class=\"image\" src=\"" ++ (im) ++ "\" alt=\"Article image\">" | none => "")) ++
    arM2 ++
    ((match d.favicon with | some fv => "<img class=\"favicon\" src=\"" ++ (fv) ++ "\" alt=\"\">" | none => "")) ++
    arM3 ++
    (escapeHtml d.siteName) ++
    arM4 ++
    (escapeHtml d.title) ++
    arM5 ++
    (escapeHtml d.description) ++
    arM6

/-- Static template text (verbatim from the source template literal). -/
def ytM0 : String := "\n    <!DOCTYPE html>\n    <html>\n    <head>\n      <meta charset=\"UTF-8\">\n      <style>\n        * \x7b margin: 0; padding: 0; box-sizing: border-box; \x7d\n        body \x7b\n          font-family: -apple-system, BlinkMacSystemFont, \"SF Pro Text\", \"Segoe UI\", Roboto, Helvetica, Arial, sans-serif;\n          background: #000;\n          padding: 20px;\n        \x7d\n        .card \x7b\n          background: #0f0f0f;\n          border-radius: 16px;\n          overflow: hidden;\n          border: 1px solid #272727;\n          max-width: "

/-- Static template text (verbatim from the source template literal). -/
def ytM1 : String := "px;\n        \x7d\n        .thumbnail \x7b\n          position: relative;\n          width: 100%;\n          height: 310px;\n          background: #1a1a1a;\n        \x7d\n        .thumbnail img \x7b\n          width: 100%;\n          height: 100%;\n          object-fit: cover;\n          display: block;\n        \x7d\n        .play \x7b\n          position: absolute;\n          left: 50%;\n          top: 50%;\n          transform: translate(-50%, -50%);\n          width: 56px;\n          height: 56px;\n          border-radius: 50%;\n          background: rgba(0, 0, 0, 0.65);\n          display: flex;\n          align-items: center;\n          justify-content: center;\n        \x7d\n        .play svg \x7b\n          width: 20px;\n          height: 20px;\n          fill: #fff;\n          margin-left: 4px;\n        \x7d\n        .content \x7b\n          padding: 16px 18px 18px;\n        \x7d\n        .platform \x7b\n          color: #ff0000;\n          font-size: 12px;\n          font-weight: 600;\n          letter-spacing: 0.06em;\n          text-transform: uppercase;\n          margin-bottom: 8px;\n        \x7d\n        .title \x7b\n          color: #fff;\n          font-size: 18px;\n          font-weight: 600;\n          line-height: 1.35;\n          margin-bottom: 8px;\n        \x7d\n        .author \x7b\n          color: #9a9a9a;\n          font-size: 13px;\n        \x7d\n      </style>\n    </head>\n    <body>\n      <div class=\"card\">\n        <div class=\"thumbnail\">\n          "

/-- Static template text (verbatim from the source template literal). -/
def ytM2 : String := "\n          <div class=\"play\">\n            <svg viewBox=\"0 0 24 24\"><path d=\"M8 5v14l11-7z\"/></svg>\n          </div>\n        </div>\n        <div class=\"content\">\n          <div class=\"platform\">YouTube</div>\n          <div class=\"title\">"

/-- Static template text (verbatim from the source template literal). -/
def ytM3 : String := "</div>\n          <div class=\"author\">"

/-- Static template text (verbatim from the source template literal). -/
def ytM4 : String := "</div>\n        </div>\n      </div>\n    </body>\n    </html>\n  "

/-- Model of renderYouTubeCard (lines 1832-1924). -/
def renderYouTubeCard (relTime : String → String) (d : VideoData) : String :=
  ytM0 ++
    (Nat.repr CARD_WIDTH) ++
    ytM1 ++
    ((match d.thumbnail with | some th => "<img src=\"" ++ (th) ++ "\" alt=\"Video thumbnail\">" | none => "")) ++
    ytM2 ++
    (escapeHtml d.title) ++
    ytM3 ++
    (escapeHtml d.author.name) ++
    ytM4

/-- Static template text (verbatim from the source template literal). -/
def tkM0 : String := "\n    <!DOCTYPE html>\n    <html>\n    <head>\n      <meta charset=\"UTF-8\">\n      <style>\n        * \x7b margin: 0; padding: 0; box-sizing: border-box; \x7d\n        body \x7b\n          font-family: -apple-system, BlinkMacSystemFont, \"SF Pro Text\", \"Segoe UI\", Roboto, Helvetica, Arial, sans-serif;\n          background: #000;\n          padding: 20px;\n        \x7d\n        .card \x7b\n          background: #0b0b0f;\n          border-radius: 16px;\n          overflow: hidden;\n          border: 1px solid #23232f;\n          max-width: "

/-- Static template text (verbatim from the source template literal). -/
def tkM1 : String := "px;\n        \x7d\n        .thumbnail \x7b\n          position: relative;\n          width: 100%;\n          height: 310px;\n          background: #1a1a1a;\n        \x7d\n        .thumbnail img \x7b\n          width: 100%;\n          height: 100%;\n          object-fit: cover;\n          display: block;\n        \x7d\n        .play \x7b\n          position: absolute;\n          left: 50%;\n          top: 50%;\n          transform: translate(-50%, -50%);\n          width: 56px;\n          height: 56px;\n          border-radius: 16px;\n          background: rgba(0, 0, 0, 0.6);\n          display: flex;\n          align-items: center;\n          justify-content: center;\n        \x7d\n        .play svg \x7b\n          width: 18px;\n          height: 18px;\n          fill: #fff;\n          margin-left: 4px;\n        \x7d\n        .content \x7b\n          padding: 16px 18px 18px;\n        \x7d\n        .platform \x7b\n          color: #25f4ee;\n          font-size: 12px;\n          font-weight: 600;\n          letter-spacing: 0.06em;\n          text-transform: uppercase;\n          margin-bottom: 8px;\n        \x7d\n        .title \x7b\n          color: #fff;\n          font-size: 17px;\n          font-weight: 600;\n          line-height: 1.35;\n          margin-bottom: 8px;\n        \x7d\n        .author \x7b\n          color: #9a9a9a;\n          font-size: 13px;\n        \x7d\n      </style>\n    </head>\n    <body>\n      <div class=\"card\">\n        <div class=\"thumbnail\">\n          "

/-- Static template text (verbatim from the source template literal). -/
def tkM2 : String := "\n          <div class=\"play\">\n            <svg viewBox=\"0 0 24 24\"><path d=\"M8 5v14l11-7z\"/></svg>\n          </div>\n        </div>\n        <div class=\"content\">\n          <div class=\"platform\">TikTok</div>\n          <div class=\"title\">"

/-- Static template text (verbatim from the source template literal). -/
def tkM3 : String := "</div>\n          <div class=\"author\">"

/-- Static template text (verbatim from the source template literal). -/
def tkM4 : String := "</div>\n        </div>\n      </div>\n    </body>\n    </html>\n  "

/-- Model of renderTikTokCard (lines 1929-2021). -/
def renderTikTokCard (relTime : String → String) (d : VideoData) : String :=
  tkM0 ++
    (Nat.repr CARD_WIDTH) ++
    tkM1 ++
    ((match d.thumbnail with | some th => "<img src=\"" ++ (th) ++ "\" alt=\"Video thumbnail\">" | none => "")) ++
    tkM2 ++
    (escapeHtml d.title) ++
    tkM3 ++
    (escapeHtml (jsOr d.author.handle d.author.name)) ++
    tkM4

/-- Static template text (verbatim from the source template literal). -/
def btwI0 : String := "\n    <div class=\"images "

/-- Static template text (verbatim from the source template literal). -/
def btwI1 : String := "\">\n      "

/-- Static template text (verbatim from the source template literal). -/
def btwI2 : String := "\n    </div>\n  "

/-- Static template text (verbatim from the source template literal). -/
def btwM0 : String := "\n    <!DOCTYPE html>\n    <html>\n    <head>\n      <meta charset=\"UTF-8\">\n      <style>\n        * \x7b margin: 0; padding: 0; box-sizing: border-box; \x7d\n        body \x7b\n          font-family: -apple-system, BlinkMacSystemFont, \"SF Pro Display\", \"SF Pro Text\", Helvetica, Arial, sans-serif;\n          background: transparent;\n          padding: 0;\n        \x7d\n        .card \x7b\n          background: #1c1c1e;\n          border-radius: 24px;\n          padding: 24px;\n          max-width: "

/-- Static template text (verbatim from the source template literal). -/
def btwM1 : String := "px;\n        \x7d\n        .header \x7b\n          display: flex;\n          align-items: center;\n          margin-bottom: 16px;\n        \x7d\n        .avatar \x7b\n          width: 44px;\n          height: 44px;\n          border-radius: 50%;\n          margin-right: 12px;\n          object-fit: cover;\n        \x7d\n        .author-info \x7b flex: 1; \x7d\n        .name \x7b\n          color: #fff;\n          font-weight: 600;\n          font-size: 16px;\n          letter-spacing: -0.01em;\n        \x7d\n        .handle \x7b\n          color: rgba(255,255,255,0.55);\n          font-size: 14px;\n        \x7d\n        .content \x7b\n          color: #fff;\n          font-size: 17px;\n          line-height: 1.45;\n          margin-bottom: 16px;\n          white-space: pre-wrap;\n          word-wrap: break-word;\n          letter-spacing: -0.01em;\n        \x7d\n        .images \x7b\n          border-radius: 16px;\n          overflow: hidden;\n          margin-bottom: 16px;\n        \x7d\n        .images.grid \x7b\n          display: grid;\n          grid-template-columns: repeat(2, 1fr);\n          gap: 2px;\n        \x7d\n        .images img \x7b\n          width: 100%;\n          display: block;\n          max-height: 300px;\n          object-fit: cover;\n        \x7d\n        .metrics \x7b\n          display: flex;\n          gap: 24px;\n          color: rgba(255,255,255,0.55);\n          font-size: 14px;\n        \x7d\n        .metric \x7b\n          display: flex;\n          align-items: center;\n          gap: 6px;\n        \x7d\n      </style>\n    </head>\n    <body>\n      <div class=\"card\">\n        <div class=\"header\">\n          "

/-- Static template text (verbatim from the source template literal). -/
def btwM2 : String := "\n          <div class=\"author-info\">\n            <div class=\"name\">"

/-- Static template text (verbatim from the source template literal). -/
def btwM3 : String := "</div>\n            <div class=\"handle\">@"

/-- Static template text (verbatim from the source template literal). -/
def btwM4 : String := "</div>\n          </div>\n        </div>\n        <div class=\"content\">"

/-- Static template text (verbatim from the source template literal). -/
def btwM5 : String := "</div>\n        "

/-- Static template text (verbatim from the source template literal). -/
def btwM6 : String := "\n        <div class=\"metrics\">\n          <span class=\"metric\">"

/-- Static template text (verbatim from the source template literal). -/
def btwM7 : String := " replies</span>\n          <span class=\"metric\">"

/-- Static template text (verbatim from the source template literal). -/
def btwM8 : String := " reposts</span>\n          <span class=\"metric\">"

/-- Static template text (verbatim from the source template literal). -/
def btwM9 : String := " likes</span>\n        </div>\n      </div>\n    </body>\n    </html>\n  "

/-- Model of renderBentoTwitterCard (lines 2030-2136). -/
def renderBentoTwitterCard (relTime : String → String) (d : TwitterData) : String :=
  let imagesHtml := if 0 < d.images.length then
      btwI0 ++
    ((if 1 < d.images.length then "grid" else "")) ++
    btwI1 ++
    (joinAll (d.images.map (fun img => "<img src=\"" ++ img ++ "\" alt=\"Tweet image\">"))) ++
    btwI2
    else ""
  btwM0 ++
    (Nat.repr CARD_WIDTH) ++
    btwM1 ++
    ((match d.author.avatar with | some av => "<img class=\"avatar\" src=\"" ++ (av) ++ "\" alt=\"Avatar\">" | none => "<div class=\"avatar\" style=\"background:#2c2c2e;\"></div>")) ++
    btwM2 ++
    (escapeHtml d.author.name) ++
    btwM3 ++
    (escapeHtml d.author.handle) ++
    btwM4 ++
    (escapeHtml d.content) ++
    btwM5 ++
    (imagesHtml) ++
    btwM6 ++
    (formatNumber d.metrics.replies) ++
    btwM7 ++
    (formatNumber d.metrics.retweets) ++
    btwM8 ++
    (formatNumber d.metrics.likes) ++
    btwM9

/-- Static template text (verbatim from the source template literal). -/
def bbsI0 : String := "\n    <div class=\"images "

/-- Static template text (verbatim from the source template literal). -/
def bbsI1 : String := "\">\n      "

/-- Static template text (verbatim from the source template literal). -/
def bbsI2 : String := "\n    </div>\n  "

/-- Static template text (verbatim from the source template literal). -/
def bbsM0 : String := "\n    <!DOCTYPE html>\n    <html>\n    <head>\n      <meta charset=\"UTF-8\">\n      <style>\n        * \x7b margin: 0; padding: 0; box-sizing: border-box; \x7d\n        body \x7b\n          font-family: -apple-system, BlinkMacSystemFont, \"SF Pro Display\", \"SF Pro Text\", Helvetica, Arial, sans-serif;\n          background: transparent;\n          padding: 0;\n        \x7d\n        .card \x7b\n          background: #1c1c1e;\n          border-radius: 24px;\n          padding: 24px;\n          max-width: "

/-- Static template text (verbatim from the source template literal). -/
def bbsM1 : String := "px;\n        \x7d\n        .header \x7b\n          display: flex;\n          align-items: center;\n          margin-bottom: 16px;\n        \x7d\n        .avatar \x7b\n          width: 44px;\n          height: 44px;\n          border-radius: 50%;\n          margin-right: 12px;\n          object-fit: cover;\n        \x7d\n        .author-info \x7b flex: 1; \x7d\n        .name \x7b\n          color: #fff;\n          font-weight: 600;\n          font-size: 16px;\n          letter-spacing: -0.01em;\n        \x7d\n        .handle \x7b\n          color: rgba(255,255,255,0.55);\n          font-size: 14px;\n        \x7d\n        .content \x7b\n          color: #fff;\n          font-size: 17px;\n          line-height: 1.45;\n          margin-bottom: 16px;\n          white-space: pre-wrap;\n          letter-spacing: -0.01em;\n        \x7d\n        .images \x7b\n          border-radius: 16px;\n          overflow: hidden;\n          margin-bottom: 16px;\n        \x7d\n        .images.grid \x7b\n          display: grid;\n          grid-template-columns: repeat(2, 1fr);\n          gap: 2px;\n        \x7d\n        .images img \x7b\n          width: 100%;\n          display: block;\n          max-height: 280px;\n          object-fit: cover;\n        \x7d\n        .metrics \x7b\n          display: flex;\n          gap: 24px;\n          color: rgba(255,255,255,0.55);\n          font-size: 14px;\n        \x7d\n      </style>\n    </head>\n    <body>\n      <div class=\"card\">\n        <div class=\"header\">\n          "

/-- Static template text (verbatim from the source template literal). -/
def bbsM2 : String := "\n          <div class=\"author-info\">\n            <div class=\"name\">"

/-- Static template text (verbatim from the source template literal). -/
def bbsM3 : String := "</div>\n            <div class=\"handle\">@"

/-- Static template text (verbatim from the source template literal). -/
def bbsM4 : String := "</div>\n          </div>\n        </div>\n        <div class=\"content\">"

/-- Static template text (verbatim from the source template literal). -/
def bbsM5 : String := "</div>\n        "

/-- Static template text (verbatim from the source template literal). -/
def bbsM6 : String := "\n        <div class=\"metrics\">\n          <span class=\"metric\">"

/-- Static template text (verbatim from the source template literal). -/
def bbsM7 : String := " replies</span>\n          <span class=\"metric\">"

/-- Static template text (verbatim from the source template literal). -/
def bbsM8 : String := " reposts</span>\n          <span class=\"metric\">"

/-- Static template text (verbatim from the source template literal). -/
def bbsM9 : String := " likes</span>\n        </div>\n      </div>\n    </body>\n    </html>\n  "

/-- Model of renderBentoBlueskyCard (lines 2277-2377). -/
def renderBentoBlueskyCard (relTime : String → String) (d : BlueskyData) : String :=
  let imagesHtml := if 0 < d.images.length then
      bbsI0 ++
    ((if 1 < d.images.length then "grid" else "")) ++
    bbsI1 ++
    (joinAll (d.images.map (fun img => "<img src=\"" ++ img ++ "\" alt=\"Post image\">"))) ++
    bbsI2
    else ""
  bbsM0 ++
    (Nat.repr CARD_WIDTH) ++
    bbsM1 ++
    ((match d.author.avatar with | some av => "<img class=\"avatar\" src=\"" ++ (av) ++ "\" alt=\"Avatar\">" | none => "<div class=\"avatar\" style=\"background:#2c2c2e;\"></div>")) ++
    bbsM2 ++
    (escapeHtml d.author.name) ++
    bbsM3 ++
    (escapeHtml d.author.handle) ++
    bbsM4 ++
    (escapeHtml d.content) ++
    bbsM5 ++
    (imagesHtml) ++
    bbsM6 ++
    (formatNumber d.metrics.replies) ++
    bbsM7 ++
    (formatNumber d.metrics.reposts) ++
    bbsM8 ++
    (formatNumber d.metrics.likes) ++
    bbsM9

/-- Static template text (verbatim from the source template literal). -/
def bmsI0 : String := "\n    <div class=\"images "

/-- Static template text (verbatim from the source template literal). -/
def bmsI1 : String := "\">\n      "

/-- Static template text (verbatim from the source template literal). -/
def bmsI2 : String := "\n    </div>\n  "

/-- Static template text (verbatim from the source template literal). -/
def bmsM0 : String := "\n    <!DOCTYPE html>\n    <html>\n    <head>\n      <meta charset=\"UTF-8\">\n      <style>\n        * \x7b margin: 0; padding: 0; box-sizing: border-box; \x7d\n        body \x7b\n          font-family: -apple-system, BlinkMacSystemFont, \"SF Pro Display\", \"SF Pro Text\", Helvetica, Arial, sans-serif;\n          background: transparent;\n          padding: 0;\n        \x7d\n        .card \x7b\n          background: #1c1c1e;\n          border-radius: 24px;\n          padding: 24px;\n          max-width: "

/-- Static template text (verbatim from the source template literal). -/
def bmsM1 : String := "px;\n        \x7d\n        .header \x7b\n          display: flex;\n          align-items: center;\n          margin-bottom: 16px;\n        \x7d\n        .avatar \x7b\n          width: 44px;\n          height: 44px;\n          border-radius: 10px;\n          margin-right: 12px;\n          object-fit: cover;\n        \x7d\n        .author-info \x7b flex: 1; \x7d\n        .name \x7b\n          color: #fff;\n          font-weight: 600;\n          font-size: 16px;\n          letter-spacing: -0.01em;\n        \x7d\n        .handle \x7b\n          color: rgba(255,255,255,0.55);\n          font-size: 13px;\n        \x7d\n        .content \x7b\n          color: #fff;\n          font-size: 17px;\n          line-height: 1.45;\n          margin-bottom: 16px;\n          letter-spacing: -0.01em;\n        \x7d\n        .images \x7b\n          border-radius: 16px;\n          overflow: hidden;\n          margin-bottom: 16px;\n        \x7d\n        .images.grid \x7b\n          display: grid;\n          grid-template-columns: repeat(2, 1fr);\n          gap: 2px;\n        \x7d\n        .images img \x7b\n          width: 100%;\n          display: block;\n          max-height: 280px;\n          object-fit: cover;\n        \x7d\n        .metrics \x7b\n          display: flex;\n          gap: 24px;\n          color: rgba(255,255,255,0.55);\n          font-size: 14px;\n        \x7d\n      </style>\n    </head>\n    <body>\n      <div class=\"card\">\n        <div class=\"header\">\n          "

/-- Static template text (verbatim from the source template literal). -/
def bmsM2 : String := "\n          <div class=\"author-info\">\n            <div class=\"name\">"

/-- Static template text (verbatim from the source template literal). -/
def bmsM3 : String := "</div>\n            <div class=\"handle\">"

/-- Static template text (verbatim from the source template literal). -/
def bmsM4 : String := "</div>\n          </div>\n        </div>\n        <div class=\"content\">"

/-- Static template text (verbatim from the source template literal). -/
def bmsM5 : String := "</div>\n        "

/-- Static template text (verbatim from the source template literal). -/
def bmsM6 : String := "\n        <div class=\"metrics\">\n          <span class=\"metric\">"

/-- Static template text (verbatim from the source template literal). -/
def bmsM7 : String := " replies</span>\n          <span class=\"metric\">"

/-- Static template text (verbatim from the source template literal). -/
def bmsM8 : String := " boosts</span>\n          <span class=\"metric\">"

/-- Static template text (verbatim from the source template literal). -/
def bmsM9 : String := " favorites</span>\n        </div>\n      </div>\n    </body>\n    </html>\n  "

/-- Model of renderBentoMastodonCard (lines 2382-2481). -/
def renderBentoMastodonCard (relTime : String → String) (d : MastodonData) : String :=
  let imagesHtml := if 0 < d.images.length then
      bmsI0 ++
    ((if 1 < d.images.length then "grid" else "")) ++
    bmsI1 ++
    (joinAll (d.images.map (fun img => "<img src=\"" ++ img ++ "\" alt=\"Post image\">"))) ++
    bmsI2
    else ""
  bmsM0 ++
    (Nat.repr CARD_WIDTH) ++
    bmsM1 ++
    ((match d.author.avatar with | some av => "<img class=\"avatar\" src=\"" ++ (av) ++ "\" alt=\"Avatar\">" | none => "<div class=\"avatar\" style=\"background:#2c2c2e;\"></div>")) ++
    bmsM2 ++
    (escapeHtml d.author.name) ++
    bmsM3 ++
    (escapeHtml d.author.handle) ++
    bmsM4 ++
    (escapeHtml d.content) ++
    bmsM5 ++
    (imagesHtml) ++
    bmsM6 ++
    (formatNumber d.metrics.replies) ++
    bmsM7 ++
    (formatNumber d.metrics.boosts) ++
    bmsM8 ++
    (formatNumber d.metrics.favorites) ++
    bmsM9

/-- Static template text (verbatim from the source template literal). -/
def bmrI0 : String := "\n    <div class=\"images\">\n      "

/-- Static template text (verbatim from the source template literal). -/
def bmrI1 : String := "\n    </div>\n  "

/-- Static template text (verbatim from the source template literal). -/
def bmrM0 : String := "\n    <!DOCTYPE html>\n    <html>\n    <head>\n      <meta charset=\"UTF-8\">\n      <style>\n        * \x7b margin: 0; padding: 0; box-sizing: border-box; \x7d\n        body \x7b\n          font-family: -apple-system, BlinkMacSystemFont, \"SF Pro Display\", \"SF Pro Text\", Helvetica, Arial, sans-serif;\n          background: transparent;\n          padding: 0;\n        \x7d\n        .card \x7b\n          background: #1c1c1e;\n          border-radius: 24px;\n          padding: 24px;\n          max-width: "

/-- Static template text (verbatim from the source template literal). -/
def bmrM1 : String := "px;\n        \x7d\n        .header \x7b\n          display: flex;\n          align-items: center;\n          margin-bottom: 16px;\n        \x7d\n        .avatar \x7b\n          width: 48px;\n          height: 48px;\n          border-radius: 50%;\n          margin-right: 14px;\n          object-fit: cover;\n        \x7d\n        .author-info \x7b flex: 1; \x7d\n        .name \x7b\n          color: #0a84ff;\n          font-weight: 600;\n          font-size: 16px;\n          letter-spacing: -0.01em;\n        \x7d\n        .title \x7b\n          color: rgba(255,255,255,0.55);\n          font-size: 13px;\n        \x7d\n        .post-number \x7b\n          background: #0a84ff;\n          color: white;\n          padding: 4px 10px;\n          border-radius: 8px;\n          font-size: 13px;\n          font-weight: 600;\n        \x7d\n        .content \x7b\n          color: #fff;\n          font-size: 16px;\n          line-height: 1.5;\n          letter-spacing: -0.01em;\n        \x7d\n        .images \x7b\n          margin-top: 16px;\n        \x7d\n        .images img \x7b\n          max-width: 100%;\n          border-radius: 12px;\n          margin-bottom: 8px;\n        \x7d\n        .reactions \x7b\n          margin-top: 16px;\n          color: rgba(255,255,255,0.55);\n          font-size: 14px;\n        \x7d\n      </style>\n    </head>\n    <body>\n      <div class=\"card\">\n        <div class=\"header\">\n          "

/-- Static template text (verbatim from the source template literal). -/
def bmrM2 : String := "\n          <div class=\"author-info\">\n            <div class=\"name\">"

/-- Static template text (verbatim from the source template literal). -/
def bmrM3 : String := "</div>\n            <div class=\"title\">"

/-- Static template text (verbatim from the source template literal). -/
def bmrM4 : String := "</div>\n          </div>\n          "

/-- Static template text (verbatim from the source template literal). -/
def bmrM5 : String := "\n        </div>\n        <div class=\"content\">"

/-- Static template text (verbatim from the source template literal). -/
def bmrM6 : String := "</div>\n        "

/-- Static template text (verbatim from the source template literal). -/
def bmrM7 : String := "\n        "

/-- Static template text (verbatim from the source template literal). -/
def bmrM8 : String := "\n      </div>\n    </body>\n    </html>\n  "

/-- Model of renderBentoMacrumorsCard (lines 2486-2580). postNumber interpolated raw, as in the source. -/
def renderBentoMacrumorsCard (relTime : String → String) (d : MacrumorsData) : String :=
  let imagesHtml := if 0 < d.images.length then
      bmrI0 ++
    (joinAll (d.images.map (fun img => "<img src=\"" ++ img ++ "\" alt=\"Post image\">"))) ++
    bmrI1
    else ""
  bmrM0 ++
    (Nat.repr CARD_WIDTH) ++
    bmrM1 ++
    ((match d.author.avatar with | some av => "<img class=\"avatar\" src=\"" ++ (av) ++ "\" alt=\"Avatar\">" | none => "<div class=\"avatar\" style=\"background:#2c2c2e;\"></div>")) ++
    bmrM2 ++
    (escapeHtml d.author.name) ++
    bmrM3 ++
    (escapeHtml (jsOr d.author.title "member")) ++
    bmrM4 ++
    ((if d.postNumber = "" then "" else "<span class=\"post-number\">#" ++ (d.postNumber) ++ "</span>")) ++
    bmrM5 ++
    (escapeHtml d.content) ++
    bmrM6 ++
    (imagesHtml) ++
    bmrM7 ++
    ((if d.reactions = "" then "" else "<div class=\"reactions\">" ++ (escapeHtml d.reactions) ++ "</div>")) ++
    bmrM8

/-- Static template text (verbatim from the source template literal). -/
def barM0 : String := "\n    <!DOCTYPE html>\n    <html>\n    <head>\n      <meta charset=\"UTF-8\">\n      <style>\n        * \x7b margin: 0; padding: 0; box-sizing: border-box; \x7d\n        body \x7b\n          font-family: -apple-system, BlinkMacSystemFont, \"SF Pro Display\", \"SF Pro Text\", Helvetica, Arial, sans-serif;\n          background: transparent;\n          padding: 0;\n        \x7d\n        .card \x7b\n          background: #1c1c1e;\n          border-radius: 24px;\n          overflow: hidden;\n          max-width: "

/-- Static template text (verbatim from the source template literal). -/
def barM1 : String := "px;\n        \x7d\n        .image \x7b\n          width: 100%;\n          height: 200px;\n          object-fit: cover;\n        \x7d\n        .content \x7b\n          padding: 24px;\n        \x7d\n        .site \x7b\n          display: flex;\n          align-items: center;\n          gap: 8px;\n          margin-bottom: 12px;\n        \x7d\n        .favicon \x7b\n          width: 20px;\n          height: 20px;\n          border-radius: 4px;\n        \x7d\n        .site-name \x7b\n          color: rgba(255,255,255,0.55);\n          font-size: 13px;\n        \x7d\n        .title \x7b\n          color: #fff;\n          font-size: 20px;\n          font-weight: 600;\n          line-height: 1.3;\n          margin-bottom: 8px;\n          letter-spacing: -0.02em;\n        \x7d\n        .description \x7b\n          color: rgba(255,255,255,0.7);\n          font-size: 15px;\n          line-height: 1.45;\n          letter-spacing: -0.01em;\n        \x7d\n      </style>\n    </head>\n    <body>\n      <div class=\"card\">\n        "

/-- Static template text (verbatim from the source template literal). -/
def barM2 : String := "\n        <div class=\"content\">\n          <div class=\"site\">\n            "

/-- Static template text (verbatim from the source template literal). -/
def barM3 : String := "\n            <span class=\"site-name\">"

/-- Static template text (verbatim from the source template literal). -/
def barM4 : String := "</span>\n          </div>\n          <div class=\"title\">"

/-- Static template text (verbatim from the source template literal). -/
def barM5 : String := "</div>\n          <div class=\"description\">"

/-- Static template text (verbatim from the source template literal). -/
def barM6 : String := "</div>\n        </div>\n      </div>\n    </body>\n    </html>\n  "

/-- Model of renderBentoArticleCard (lines 2585-2658). -/
def renderBentoArticleCard (relTime : String → String) (d : ArticleData) : String :=
  barM0 ++
    (Nat.repr CARD_WIDTH) ++
    barM1 ++
    ((match d.image with | some im => "<img class=\"image\" src=\"" ++ (im) ++ "\" alt=\"Article image\">" | none => "")) ++
    barM2 ++
    ((match d.favicon with | some fv => "<img class=\"favicon\" src=\"" ++ (fv) ++ "\" alt=\"\">" | none => "")) ++
    barM3 ++
    (escapeHtml d.siteName) ++
    barM4 ++
    (escapeHtml d.title) ++
    barM5 ++
    (escapeHtml d.description) ++
    barM6

/-- Static template text (verbatim from the source template literal). -/
def bytM0 : String := "\n    <!DOCTYPE html>\n    <html>\n    <head>\n      <meta charset=\"UTF-8\">\n      <style>\n        * \x7b margin: 0; padding: 0; box-sizing: border-box; \x7d\n        body \x7b\n          font-family: -apple-system, BlinkMacSystemFont, \"SF Pro Display\", \"SF Pro Text\", Helvetica, Arial, sans-serif;\n          background: transparent;\n          padding: 0;\n        \x7d\n        .card \x7b\n          background: #1c1c1e;\n          border-radius: 24px;\n          overflow: hidden;\n          max-width: "

/-- Static template text (verbatim from the source template literal). -/
def bytM1 : String := "px;\n        \x7d\n        .thumbnail \x7b\n          position: relative;\n          width: 100%;\n          height: 220px;\n          background: #2c2c2e;\n        \x7d\n        .thumbnail img \x7b\n          width: 100%;\n          height: 100%;\n          object-fit: cover;\n          display: block;\n        \x7d\n        .play \x7b\n          position: absolute;\n          left: 50%;\n          top: 50%;\n          transform: translate(-50%, -50%);\n          width: 52px;\n          height: 52px;\n          border-radius: 50%;\n          background: rgba(0, 0, 0, 0.6);\n          display: flex;\n          align-items: center;\n          justify-content: center;\n        \x7d\n        .play svg \x7b\n          width: 18px;\n          height: 18px;\n          fill: #fff;\n          margin-left: 3px;\n        \x7d\n        .content \x7b\n          padding: 22px 24px 24px;\n        \x7d\n        .platform \x7b\n          color: #ff453a;\n          font-size: 12px;\n          font-weight: 600;\n          letter-spacing: 0.06em;\n          text-transform: uppercase;\n          margin-bottom: 10px;\n        \x7d\n        .title \x7b\n          color: #fff;\n          font-size: 18px;\n          font-weight: 600;\n          line-height: 1.3;\n          letter-spacing: -0.02em;\n          margin-bottom: 8px;\n        \x7d\n        .author \x7b\n          color: rgba(255,255,255,0.55);\n          font-size: 14px;\n        \x7d\n      </style>\n    </head>\n    <body>\n      <div class=\"card\">\n        <div class=\"thumbnail\">\n          "

/-- Static template text (verbatim from the source template literal). -/
def bytM2 : String := "\n          <div class=\"play\">\n            <svg viewBox=\"0 0 24 24\"><path d=\"M8 5v14l11-7z\"/></svg>\n          </div>\n        </div>\n        <div class=\"content\">\n          <div class=\"platform\">YouTube</div>\n          <div class=\"title\">"

/-- Static template text (verbatim from the source template literal). -/
def bytM3 : String := "</div>\n          <div class=\"author\">"

/-- Static template text (verbatim from the source template literal). -/
def bytM4 : String := "</div>\n        </div>\n      </div>\n    </body>\n    </html>\n  "

/-- Model of renderBentoYouTubeCard (lines 2663-2755). -/
def renderBentoYouTubeCard (relTime : String → String) (d : VideoData) : String :=
  bytM0 ++
    (Nat.repr CARD_WIDTH) ++
    bytM1 ++
    ((match d.thumbnail with | some th => "<img src=\"" ++ (th) ++ "\" alt=\"Video thumbnail\">" | none => "")) ++
    bytM2 ++
    (escapeHtml d.title) ++
    bytM3 ++
    (escapeHtml d.author.name) ++
    bytM4

/-- Static template text (verbatim from the source template literal). -/
def btkM0 : String := "\n    <!DOCTYPE html>\n    <html>\n    <head>\n      <meta charset=\"UTF-8\">\n      <style>\n        * \x7b margin: 0; padding: 0; box-sizing: border-box; \x7d\n        body \x7b\n          font-family: -apple-system, BlinkMacSystemFont, \"SF Pro Display\", \"SF Pro Text\", Helvetica, Arial, sans-serif;\n          background: transparent;\n          padding: 0;\n        \x7d\n        .card \x7b\n          background: #1c1c1e;\n          border-radius: 24px;\n          overflow: hidden;\n          max-width: "

/-- Static template text (verbatim from the source template literal). -/
def btkM1 : String := "px;\n        \x7d\n        .thumbnail \x7b\n          position: relative;\n          width: 100%;\n          height: 220px;\n          background: #2c2c2e;\n        \x7d\n        .thumbnail img \x7b\n          width: 100%;\n          height: 100%;\n          object-fit: cover;\n          display: block;\n        \x7d\n        .play \x7b\n          position: absolute;\n          left: 50%;\n          top: 50%;\n          transform: translate(-50%, -50%);\n          width: 52px;\n          height: 52px;\n          border-radius: 16px;\n          background: rgba(0, 0, 0, 0.6);\n          display: flex;\n          align-items: center;\n          justify-content: center;\n        \x7d\n        .play svg \x7b\n          width: 18px;\n          height: 18px;\n          fill: #fff;\n          margin-left: 3px;\n        \x7d\n        .content \x7b\n          padding: 22px 24px 24px;\n        \x7d\n        .platform \x7b\n          color: #25f4ee;\n          font-size: 12px;\n          font-weight: 600;\n          letter-spacing: 0.06em;\n          text-transform: uppercase;\n          margin-bottom: 10px;\n        \x7d\n        .title \x7b\n          color: #fff;\n          font-size: 18px;\n          font-weight: 600;\n          line-height: 1.3;\n          letter-spacing: -0.02em;\n          margin-bottom: 8px;\n        \x7d\n        .author \x7b\n          color: rgba(255,255,255,0.55);\n          font-size: 14px;\n        \x7d\n      </style>\n    </head>\n    <body>\n      <div class=\"card\">\n        <div class=\"thumbnail\">\n          "

/-- Static template text (verbatim from the source template literal). -/
def btkM2 : String := "\n          <div class=\"play\">\n            <svg viewBox=\"0 0 24 24\"><path d=\"M8 5v14l11-7z\"/></svg>\n          </div>\n        </div>\n        <div class=\"content\">\n          <div class=\"platform\">TikTok</div>\n          <div class=\"title\">"

/-- Static template text (verbatim from the source template literal). -/
def btkM3 : String := "</div>\n          <div class=\"author\">"

/-- Static template text (verbatim from the source template literal). -/
def btkM4 : String := "</div>\n        </div>\n      </div>\n    </body>\n    </html>\n  "

/-- Model of renderBentoTikTokCard (lines 2760-2852). -/
def renderBentoTikTokCard (relTime : String → String) (d : VideoData) : String :=
  btkM0 ++
    (Nat.repr CARD_WIDTH) ++
    btkM1 ++
    ((match d.thumbnail with | some th => "<img src=\"" ++ (th) ++ "\" alt=\"Video thumbnail\">" | none => "")) ++
    btkM2 ++
    (escapeHtml d.title) ++
    btkM3 ++
    (escapeHtml (jsOr d.author.handle d.author.name)) ++
    btkM4

/-- Static template text (verbatim from the source template literal). -/
def ttI0 : String := "\n      <div class=\"tweet-images "

/-- Static template text (verbatim from the source template literal). -/
def ttI1 : String := "\">\n        "

/-- Static template text (verbatim from the source template literal). -/
def ttI2 : String := "\n      </div>\n    "

/-- Static template text (verbatim from the source template literal). -/
def ttB0 : String := "\n      <div class=\"tweet "

/-- Static template text (verbatim from the source template literal). -/
def ttB1 : String := "\">\n        <div class=\"tweet-connector\">\n          <div class=\"avatar-wrapper\">\n            "

/-- Static template text (verbatim from the source template literal). -/
def ttB2 : String := "\n          </div>\n          "

/-- Static template text (verbatim from the source template literal). -/
def ttB3 : String := "\n        </div>\n        <div class=\"tweet-content\">\n          <div class=\"tweet-header\">\n            <span class=\"name\">"

/-- Static template text (verbatim from the source template literal). -/
def ttB4 : String := "</span>\n            <span class=\"handle\">@"

/-- Static template text (verbatim from the source template literal). -/
def ttB5 : String := "</span>\n            <span class=\"time\">· "

/-- Static template text (verbatim from the source template literal). -/
def ttB6 : String := "</span>\n          </div>\n          <div class=\"tweet-text\">"

/-- Static template text (verbatim from the source template literal). -/
def ttB7 : String := "</div>\n          "

/-- Static template text (verbatim from the source template literal). -/
def ttB8 : String := "\n        </div>\n      </div>\n    "

/-- One tweet block of renderTwitterThreadCard; isLast mirrors index === tweets.length - 1. -/
def threadTweetBlock (relTime : String → String) (t : ThreadTweet) (isLast : Bool) : String :=
  let imagesHtml := if 0 < t.images.length then
      ttI0 ++
    ((if 1 < t.images.length then "grid" else "")) ++
    ttI1 ++
    (joinAll (t.images.map (fun img => "<img src=\"" ++ img ++ "\" alt=\"Tweet image\">"))) ++
    ttI2
    else ""
  ttB0 ++
    ((if t.isMainTweet then "main-tweet" else "")) ++
    ttB1 ++
    ((match t.author.avatar with | some av => "<img class=\"avatar\" src=\"" ++ (av) ++ "\" alt=\"Avatar\">" | none => "<div class=\"avatar placeholder\"></div>")) ++
    ttB2 ++
    ((if isLast then "" else "<div class=\"connector-line\"></div>")) ++
    ttB3 ++
    (escapeHtml t.author.name) ++
    ttB4 ++
    (escapeHtml t.author.handle) ++
    ttB5 ++
    (relTime t.timestamp) ++
    ttB6 ++
    (escapeHtml t.content) ++
    ttB7 ++
    (imagesHtml) ++
    ttB8

/-- Static template text (verbatim from the source template literal). -/
def ttM0 : String := "\n    <!DOCTYPE html>\n    <html>\n    <head>\n      <meta charset=\"UTF-8\">\n      <style>\n        * \x7b margin: 0; padding: 0; box-sizing: border-box; \x7d\n        body \x7b\n          font-family: -apple-system, BlinkMacSystemFont, \"Segoe UI\", Roboto, Helvetica, Arial, sans-serif;\n          background: #000;\n          padding: 20px;\n        \x7d\n        .card \x7b\n          background: #16181c;\n          border-radius: 16px;\n          padding: 16px;\n          max-width: "

/-- First half of the static CSS/skeleton text of this template (split only
to keep each literal small; the concatenation below is the verbatim text). -/
def ttM1a : String := "px;\n          border: 1px solid #2f3336;\n        \x7d\n        .tweet \x7b\n          display: flex;\n          gap: 12px;\n          margin-bottom: 0;\n        \x7d\n        .tweet.main-tweet .tweet-text \x7b\n          font-size: 16px;\n        \x7d\n        .tweet-connector \x7b\n          display: flex;\n          flex-direction: column;\n          align-items: center;\n          width: 40px;\n          flex-shrink: 0;\n        \x7d\n        .avatar-wrapper \x7b\n          flex-shrink: 0;\n        \x7d\n        .avatar \x7b\n          width: 40px;\n          height: 40px;\n          border-radius: 50%;\n          object-fit: cover;\n        \x7d\n        .avatar.placeholder \x7b\n          background: #2f3336;\n        \x7d\n        .connector-line \x7b\n          width: 2px;\n          flex-grow: 1;\n          background: #2f3336;\n          min-height: 20px;\n          margin: 4px 0;\n        \x7d\n        .tweet-content \x7b\n          flex: 1;\n          padding-bottom: 16px;\n        \x7d\n        .tweet:last-child .tweet-content \x7b\n          padding-bottom: 0;\n        \x7d\n        .tweet-header \x7b\n          display: flex;\n"

/-- Second half of the same static text. -/
def ttM1b : String := "          align-items: center;\n          gap: 4px;\n          margin-bottom: 4px;\n          flex-wrap: wrap;\n        \x7d\n        .name \x7b\n          color: #e7e9ea;\n          font-weight: 700;\n          font-size: 14px;\n        \x7d\n        .handle \x7b\n          color: #71767b;\n          font-size: 14px;\n        \x7d\n        .time \x7b\n          color: #71767b;\n          font-size: 14px;\n        \x7d\n        .tweet-text \x7b\n          color: #e7e9ea;\n          font-size: 14px;\n          line-height: 1.4;\n          white-space: pre-wrap;\n          word-wrap: break-word;\n        \x7d\n        .tweet-images \x7b\n          border-radius: 12px;\n          overflow: hidden;\n          margin-top: 12px;\n        \x7d\n        .tweet-images.grid \x7b\n          display: grid;\n          grid-template-columns: repeat(2, 1fr);\n          gap: 2px;\n        \x7d\n        .tweet-images img \x7b\n          width: 100%;\n          display: block;\n          max-height: 200px;\n          object-fit: cover;\n        \x7d\n      </style>\n    </head>\n    <body>\n      <div class=\"card\">\n        "

/-- Static template text (verbatim from the source template literal). -/
def ttM1 : String := ttM1a ++ ttM1b

/-- Static template text (verbatim from the source template literal). -/
def ttM2 : String := "\n      </div>\n    </body>\n    </html>\n  "

/-- Model of renderTwitterThreadCard (lines 1248-1391). -/
def renderTwitterThreadCard (relTime : String → String) (d : ThreadData) : String :=
  let tweetsHtml := joinAll (mapIdxFrom (fun t i => threadTweetBlock relTime t (decide (i = d.tweets.length - 1))) d.tweets 0)
  ttM0 ++
    (Nat.repr CARD_WIDTH) ++
    ttM1 ++
    (tweetsHtml) ++
    ttM2

/-- Static template text (verbatim from the source template literal). -/
def bttI0 : String := "\n      <div class=\"tweet-images "

/-- Static template text (verbatim from the source template literal). -/
def bttI1 : String := "\">\n        "

/-- Static template text (verbatim from the source template literal). -/
def bttI2 : String := "\n      </div>\n    "

/-- Static template text (verbatim from the source template literal). -/
def bttB0 : String := "\n      <div class=\"tweet\">\n        <div class=\"tweet-connector\">\n          <div class=\"avatar-wrapper\">\n            "

/-- Static template text (verbatim from the source template literal). -/
def bttB1 : String := "\n          </div>\n          "

/-- Static template text (verbatim from the source template literal). -/
def bttB2 : String := "\n        </div>\n        <div class=\"tweet-content\">\n          <div class=\"tweet-header\">\n            <span class=\"name\">"

/-- Static template text (verbatim from the source template literal). -/
def bttB3 : String := "</span>\n            <span class=\"handle\">@"

/-- Static template text (verbatim from the source template literal). -/
def bttB4 : String := "</span>\n          </div>\n          <div class=\"tweet-text\">"

/-- Static template text (verbatim from the source template literal). -/
def bttB5 : String := "</div>\n          "

/-- Static template text (verbatim from the source template literal). -/
def bttB6 : String := "\n        </div>\n      </div>\n    "

/-- One tweet block of renderBentoTwitterThreadCard; isLast mirrors index === tweets.length - 1. -/
def bentoThreadTweetBlock (relTime : String → String) (t : ThreadTweet) (isLast : Bool) : String :=
  let imagesHtml := if 0 < t.images.length then
      bttI0 ++
    ((if 1 < t.images.length then "grid" else "")) ++
    bttI1 ++
    (joinAll (t.images.map (fun img => "<img src=\"" ++ img ++ "\" alt=\"Tweet image\">"))) ++
    bttI2
    else ""
  bttB0 ++
    ((match t.author.avatar with | some av => "<img class=\"avatar\" src=\"" ++ (av) ++ "\" alt=\"Avatar\">" | none => "<div class=\"avatar placeholder\"></div>")) ++
    bttB1 ++
    ((if isLast then "" else "<div class=\"connector-line\"></div>")) ++
    bttB2 ++
    (escapeHtml t.author.name) ++
    bttB3 ++
    (escapeHtml t.author.handle) ++
    bttB4 ++
    (escapeHtml t.content) ++
    bttB5 ++
    (imagesHtml) ++
    bttB6

/-- Static template text (verbatim from the source template literal). -/
def bttM0 : String := "\n    <!DOCTYPE html>\n    <html>\n    <head>\n      <meta charset=\"UTF-8\">\n      <style>\n        * \x7b margin: 0; padding: 0; box-sizing: border-box; \x7d\n        body \x7b\n          font-family: -apple-system, BlinkMacSystemFont, \"SF Pro Display\", \"SF Pro Text\", Helvetica, Arial, sans-serif;\n          background: transparent;\n          padding: 0;\n        \x7d\n        .card \x7b\n          background: #1c1c1e;\n          border-radius: 24px;\n          padding: 24px;\n          max-width: "

/-- First half of the static CSS/skeleton text of this template (split only
to keep each literal small; the concatenation below is the verbatim text). -/
def bttM1a : String := "px;\n        \x7d\n        .tweet \x7b\n          display: flex;\n          gap: 12px;\n        \x7d\n        .tweet-connector \x7b\n          display: flex;\n          flex-direction: column;\n          align-items: center;\n          width: 40px;\n          flex-shrink: 0;\n        \x7d\n        .avatar \x7b\n          width: 40px;\n          height: 40px;\n          border-radius: 50%;\n          object-fit: cover;\n        \x7d\n        .avatar.placeholder \x7b\n          background: #2c2c2e;\n        \x7d\n        .connector-line \x7b\n          width: 2px;\n          flex-grow: 1;\n          background: #3a3a3c;\n          min-height: 20px;\n          margin: 4px 0;\n        \x7d\n        .tweet-content \x7b\n          flex: 1;\n          padding-bottom: 20px;\n        \x7d\n        .tweet:last-child .tweet-content \x7b\n          padding-bottom: 0;\n        \x7d\n        .tweet-header \x7b\n          display: flex;\n          align-items: center;\n          gap: 6px;\n          margin-bottom: 4px;\n"

/-- Second half of the same static text. -/
def bttM1b : String := "        \x7d\n        .name \x7b\n          color: #fff;\n          font-weight: 600;\n          font-size: 15px;\n          letter-spacing: -0.01em;\n        \x7d\n        .handle \x7b\n          color: rgba(255,255,255,0.55);\n          font-size: 14px;\n        \x7d\n        .tweet-text \x7b\n          color: #fff;\n          font-size: 16px;\n          line-height: 1.45;\n          white-space: pre-wrap;\n          word-wrap: break-word;\n          letter-spacing: -0.01em;\n        \x7d\n        .tweet-images \x7b\n          border-radius: 12px;\n          overflow: hidden;\n          margin-top: 12px;\n        \x7d\n        .tweet-images.grid \x7b\n          display: grid;\n          grid-template-columns: repeat(2, 1fr);\n          gap: 2px;\n        \x7d\n        .tweet-images img \x7b\n          width: 100%;\n          display: block;\n          max-height: 200px;\n          object-fit: cover;\n        \x7d\n      </style>\n    </head>\n    <body>\n      <div class=\"card\">\n        "

/-- Static template text (verbatim from the source template literal). -/
def bttM1 : String := bttM1a ++ bttM1b

/-- Static template text (verbatim from the source template literal). -/
def bttM2 : String := "\n      </div>\n    </body>\n    </html>\n  "

/-- Model of renderBentoTwitterThreadCard (lines 2141-2272). -/
def renderBentoTwitterThreadCard (relTime : String → String) (d : ThreadData) : String :=
  let tweetsHtml := joinAll (mapIdxFrom (fun t i => bentoThreadTweetBlock relTime t (decide (i = d.tweets.length - 1))) d.tweets 0)
  bttM0 ++
    (Nat.repr CARD_WIDTH) ++
    bttM1 ++
    (tweetsHtml) ++
    bttM2

-- ===== Payload dispatch and card rendering (mirrors the switch in processUrl) =====

/-- Tagged union of the per-platform payloads, as dispatched by processUrl
(lines 2932-2987).  The `threadsApp` constructor carries the Twitter-shaped
record produced by scrapeThreads, which processUrl renders with the Twitter
templates. -/
inductive PostData where
  | twitter (d : TwitterData)
  | thread (d : ThreadData)
  | macrumors (d : MacrumorsData)
  | bluesky (d : BlueskyData)
  | mastodon (d : MastodonData)
  | threadsApp (d : TwitterData)
  | article (d : ArticleData)
  | youtube (d : VideoData)
  | tiktok (d : VideoData)
deriving Repr, DecidableEq

/-- Card rendering dispatch: `options.bento ? renderBentoX(data) : renderX(data)`
per platform, exactly as in the switch of processUrl (lines 2932-2987). -/
def renderCard (relTime : String → String) (bento : Bool) : PostData → String
  | .twitter d => if bento then renderBentoTwitterCard relTime d else renderTwitterCard relTime d
  | .thread d =>
      if bento then renderBentoTwitterThreadCard relTime d else renderTwitterThreadCard relTime d
  | .macrumors d =>
      if bento then renderBentoMacrumorsCard relTime d else renderMacrumorsCard relTime d
  | .bluesky d => if bento then renderBentoBlueskyCard relTime d else renderBlueskyCard relTime d
  | .mastodon d =>
      if bento then renderBentoMastodonCard relTime d else renderMastodonCard relTime d
  | .threadsApp d => if bento then renderBentoTwitterCard relTime d else renderTwitterCard relTime d
  | .article d => if bento then renderBentoArticleCard relTime d else renderArticleCard relTime d
  | .youtube d => if bento then renderBentoYouTubeCard relTime d else renderYouTubeCard relTime d
  | .tiktok d => if bento then renderBentoTikTokCard relTime d else renderTikTokCard relTime d

-- ===== Image materializer (imageToBase64 lines 173-197, downloadImage lines 202-229) =====

/-- Outcome of one `protocol.get` call: either the request errors (the `error`
event fires) or a response arrives with a status code, an optional `location`
header (empty string for absent), an optional `content-type` header (empty
string for absent), and the body bytes. -/
inductive HttpResp where
  | fail : HttpResp
  | resp (status : Nat) (location : String) (contentType : String) (body : List Nat) : HttpResp

/-- The redirect condition shared by both functions:
`res.statusCode >= 300 && res.statusCode < 400 && res.headers.location`. -/
def isRedirect (status : Nat) (location : String) : Bool :=
  decide (300 ≤ status) && decide (status < 400) && location != ""

/-- Base64 alphabet. -/
def base64Table : List Char :=
  "ABCDEFGHIJKLMNOPQRSTUVWXYZabcdefghijklmnopqrstuvwxyz0123456789+/".data

/-- Character for one 6-bit group. -/
def b64c (n : Nat) : Char := base64Table.getD n 'A'

/-- Standard base64 with padding; models `Buffer.prototype.toString('base64')`. -/
def base64Encode : List Nat → List Char
  | [] => []
  | [a] => [b64c (a / 4), b64c (a % 4 * 16), '=', '=']
  | [a, b] => [b64c (a / 4), b64c (a % 4 * 16 + b / 16), b64c (b % 16 * 4), '=']
  | a :: b :: c :: rest =>
      b64c (a / 4) :: b64c (a % 4 * 16 + b / 16) :: b64c (b % 16 * 4 + c / 64) :: b64c (c % 64)
        :: base64Encode rest

/-- Model of imageToBase64 (lines 173-197).  `get` is the network boundary and
`fuel` bounds the redirect recursion, which the source leaves unbounded: an
outer `none` models the resulting divergence on an over-long redirect chain,
never an exception.  The returned pair is the resolved value (a data URI, or
`none` for the null resolution) together with the list of URLs requested. -/
def imageToBase64 (get : String → HttpResp) : Nat → String → Option (Option String × List String)
  | fuel, url =>
    if url = "" then some (none, [])
    else
      match get url with
      | .fail => some (none, [url])
      | .resp status loc contentType body =>
        if isRedirect status loc then
          match fuel with
          | 0 => none
          | fuel' + 1 => (imageToBase64 get fuel' loc).map (fun r => (r.1, url :: r.2))
        else
          some (some ("data:" ++ jsOr contentType "image/jpeg" ++ ";base64,"
                        ++ (⟨base64Encode body⟩ : String)), [url])

/-- Model of downloadImage (lines 202-229).  Same boundary conventions as
imageToBase64; the third component lists the file paths written.  Unlike
imageToBase64, the source rejects non-200 statuses and resolves null. -/
def downloadImage (get : String → HttpResp) :
    Nat → String → String → Option (Option String × List String × List String)
  | fuel, url, filepath =>
    if url = "" then some (none, [], [])
    else
      match get url with
      | .fail => some (none, [url], [])
      | .resp status loc _ _ =>
        if isRedirect status loc then
          match fuel with
          | 0 => none
          | fuel' + 1 =>
              (downloadImage get fuel' loc filepath).map (fun r => (r.1, url :: r.2.1, r.2.2))
        else if status ≠ 200 then some (none, [url], [])
        else some (some filepath, [url], [filepath])

-- ===== generateFilename (lines 280-284) and getImageExtension (lines 234-244) =====

/-- Regex class `[a-zA-Z0-9]` kept by the sanitizer. -/
def isAlphaNumAscii (c : Char) : Bool := c.isAlpha || c.isDigit

/-- The sanitized URL fragment of generateFilename:
`url.split('/').pop().replace(/[^a-zA-Z0-9]/g, '').slice(0, 20)`. -/
def urlFragment (url : String) : String :=
  ⟨(((jsSplit '/' url.data).getLastD []).filter isAlphaNumAscii).take 20⟩

/-- Model of generateFilename (lines 280-284); `now` is the `Date.now()`
millisecond timestamp, passed explicitly. -/
def generateFilename (url platform : String) (now : Nat) : String :=
  platform ++ "-" ++ urlFragment url ++ "-" ++ Nat.repr now ++ ".png"

/-- Case-insensitive literal prefix test, for the /i regexes of
getImageExtension (the patterns are given lower-case). -/
def ciPre : List Char → List Char → Bool
  | [], _ => true
  | _ :: _, [] => false
  | p :: ps, c :: cs => (Char.toLower c = p) && ciPre ps cs

/-- First alternative of `\.(jpg|jpeg|png|gif|webp)` matching at this position. -/
def extHere (l : List Char) : Option String :=
  if ciPre ".jpg".data l then some "jpg"
  else if ciPre ".jpeg".data l then some "jpeg"
  else if ciPre ".png".data l then some "png"
  else if ciPre ".gif".data l then some "gif"
  else if ciPre ".webp".data l then some "webp"
  else none

/-- Leftmost match of the extension regex. -/
def findExt : List Char → Option String
  | [] => none
  | c :: r => match extHere (c :: r) with | some e => some e | none => findExt r

/-- Alternatives of `format=(jpg|jpeg|png|gif|webp)` after the literal. -/
def fmtAlt (l : List Char) : Option String :=
  if ciPre "jpg".data l then some "jpg"
  else if ciPre "jpeg".data l then some "jpeg"
  else if ciPre "png".data l then some "png"
  else if ciPre "gif".data l then some "gif"
  else if ciPre "webp".data l then some "webp"
  else none

/-- Leftmost match of the `format=` regex. -/
def findFormat : List Char → Option String
  | [] => none
  | c :: r =>
    match (if ciPre "format=".data (c :: r) then fmtAlt ((c :: r).drop 7) else none) with
    | some e => some e
    | none => findFormat r

/-- Model of getImageExtension (lines 234-244). -/
def getImageExtension (url : String) : String :=
  match findExt url.data with
  | some e => e
  | none => match findFormat url.data with | some e => e | none => "jpg"

-- ===== processUrl (lines 2914-3037) and processInParallel (lines 85-104) =====

/-- Presentation options of a capture request (parseArgs lines 48-80). -/
structure CliOptions where
  thread : Bool := false
  bento : Bool := false
deriving Repr, DecidableEq

/-- Per-item result object (lines 2923, 3024-3031, 3035). -/
structure CaptureResult where
  success : Bool
  url : String
  error : Option String := none
  cardFilename : Option String := none
  imageFilenames : List String := []
  metadataFilename : Option String := none
  author : Option String := none
deriving Repr, DecidableEq

/-- The failure shape `{ success: false, url, error: message }`. -/
def mkFailure (url msg : String) : CaptureResult :=
  { success := false, url := url, error := some msg }

/-- Filesystem artifacts written during one capture. -/
inductive FsWrite where
  | card (path : String)
  | image (path : String)
  | metadata (path : String)
deriving Repr, DecidableEq

/-- Effect boundary of one capture: each scraper either resolves a payload or
throws (Except.error carries `e.message`); `screenshot` models
generateScreenshot, `download` models the outcome of downloadImage (a resolved
path or null; it never rejects, see the downloadImage model), and
`writeMetadata` models `fs.writeFileSync` on the metadata record. -/
structure Oracle where
  twitter : String → Except String TwitterData
  twitterThread : String → Except String ThreadData
  macrumors : String → Except String MacrumorsData
  bluesky : String → Except String BlueskyData
  mastodon : String → Except String MastodonData
  threadsApp : String → Except String TwitterData
  articleS : String → Except String ArticleData
  youtube : String → Except String VideoData
  tiktok : String → Except String VideoData
  screenshot : String → String → Except String Unit
  download : String → String → Option String
  writeMetadata : String → Except String Unit

/-- The scrape-then-render switch of processUrl (lines 2932-2987): one scraper
call per platform tag, then the variant dispatch; the unreachable default arm
throws `Platform not implemented`. -/
def scrapeAndRender (o : Oracle) (relTime : String → String) (opts : CliOptions)
    (url platform : String) : Except String (PostData × String) :=
  match platform with
  | "twitter" =>
    if opts.thread then
      (o.twitterThread url).map fun td =>
        (PostData.thread td, renderCard relTime opts.bento (PostData.thread td))
    else
      (o.twitter url).map fun d =>
        (PostData.twitter d, renderCard relTime opts.bento (PostData.twitter d))
  | "macrumors" =>
    (o.macrumors url).map fun d =>
      (PostData.macrumors d, renderCard relTime opts.bento (PostData.macrumors d))
  | "bluesky" =>
    (o.bluesky url).map fun d =>
      (PostData.bluesky d, renderCard relTime opts.bento (PostData.bluesky d))
  | "mastodon" =>
    (o.mastodon url).map fun d =>
      (PostData.mastodon d, renderCard relTime opts.bento (PostData.mastodon d))
  | "threads" =>
    (o.threadsApp url).map fun d =>
      (PostData.threadsApp d, renderCard relTime opts.bento (PostData.threadsApp d))
  | "youtube" =>
    (o.youtube url).map fun d =>
      (PostData.youtube d, renderCard relTime opts.bento (PostData.youtube d))
  | "tiktok" =>
    (o.tiktok url).map fun d =>
      (PostData.tiktok d, renderCard relTime opts.bento (PostData.tiktok d))
  | "article" =>
    (o.articleS url).map fun d =>
      (PostData.article d, renderCard relTime opts.bento (PostData.article d))
  | _ => .error "Platform not implemented"

/-- The original-resolution URL list processUrl downloads: the payload field
for single posts, the flat-map over tweets in thread mode (lines 2939-2942). -/
def originalImageUrlsOf : PostData → List String
  | .twitter d => d.originalImageUrls
  | .thread td => td.tweets.flatMap (fun t => t.originalImageUrls)
  | .macrumors d => d.originalImageUrls
  | .bluesky d => d.originalImageUrls
  | .mastodon d => d.originalImageUrls
  | .threadsApp d => d.originalImageUrls
  | .article d => d.originalImageUrls
  | .youtube d => d.originalImageUrls
  | .tiktok d => d.originalImageUrls

/-- The operator-facing author label `data.author?.name || data.siteName ||
'Unknown'` (line 2989), with the thread-mode author substitution of line 2940. -/
def authorLabelOf : PostData → String
  | .twitter d => jsOr d.author.name "Unknown"
  | .thread td => match td.tweets with
    | [] => "Unknown"
    | t :: _ => jsOr t.author.name "Unknown"
  | .macrumors d => jsOr d.author.name "Unknown"
  | .bluesky d => jsOr d.author.name "Unknown"
  | .mastodon d => jsOr d.author.name "Unknown"
  | .threadsApp d => jsOr d.author.name "Unknown"
  | .article d => jsOr d.siteName "Unknown"
  | .youtube d => jsOr d.author.name "Unknown"
  | .tiktok d => jsOr d.author.name "Unknown"

/-- The download loop of processUrl (lines 2999-3010): one downloadImage call
per original URL; a resolved path records the basename and the file write, a
null resolution records nothing. -/
def downloadLoop (o : Oracle) (dir base : String) :
    List String → Nat → List String × List FsWrite
  | [], _ => ([], [])
  | u :: rest, i =>
    let ext := getImageExtension u
    let imgFilename := pathJoin dir (base ++ "-image-" ++ Nat.repr (i + 1) ++ "." ++ ext)
    let (names, writes) := downloadLoop o dir base rest (i + 1)
    match o.download u imgFilename with
    | some _ => (pathBasename imgFilename :: names, FsWrite.image imgFilename :: writes)
    | none => (names, writes)

/-- Model of processUrl (lines 2914-3037).  The unknown-platform short circuit
happens before the try block (lines 2919-2924); everything after runs inside
try/catch, so any stage error becomes the catch result of line 3035.  The
second component is the list of filesystem writes performed, in order.  The
model is a total function: the source never rejects, because the catch block
converts every thrown error into a resolved result object. -/
def processUrl (o : Oracle) (relTime : String → String) (outputDir url : String)
    (opts : CliOptions) (now : Nat) : CaptureResult × List FsWrite :=
  let platform := detectPlatform url
  if platform = "unknown" then (mkFailure url "Unknown platform", [])
  else
    match scrapeAndRender o relTime opts url platform with
    | .error e => (mkFailure url e, [])
    | .ok (pd, html) =>
      let author := authorLabelOf pd
      let baseFilename := replaceOnce (generateFilename url platform now) ".png" ""
      let cardFilename := pathJoin outputDir (baseFilename ++ "-card.png")
      match o.screenshot html cardFilename with
      | .error e => (mkFailure url e, [])
      | .ok _ =>
        let dl := downloadLoop o outputDir baseFilename (originalImageUrlsOf pd) 0
        let metadataFilename := pathJoin outputDir (baseFilename ++ "-metadata.json")
        match o.writeMetadata metadataFilename with
        | .error e => (mkFailure url e, FsWrite.card cardFilename :: dl.2)
        | .ok _ =>
          ({ success := true, url := url,
             cardFilename := some (pathBasename cardFilename),
             imageFilenames := dl.1,
             metadataFilename := some (pathBasename metadataFilename),
             author := some author },
           FsWrite.card cardFilename :: dl.2 ++ [FsWrite.metadata metadataFilename])

/-- Model of processInParallel (lines 85-104): slice a wave of at most
`concurrency` URLs, run it, append the wave results, continue with the rest.
`start` is the global index offset `i` of the source loop.  The source loop
never terminates when `concurrency = 0` (the loop variable does not advance);
the model returns `[]` in that unreachable configuration so the function stays
total.  `f` is the per-item execution `processUrl(url, index, ...)`. -/
def processInParallel (f : α → Nat → β) (urls : List α) (concurrency start : Nat) : List β :=
  if urls.isEmpty || concurrency == 0 then []
  else
    mapIdxFrom (fun u j => f u (start + j)) (urls.take concurrency) 0
      ++ processInParallel f (urls.drop concurrency) concurrency (start + concurrency)
termination_by urls.length
decreasing_by
  rename_i h
  simp only [Bool.or_eq_true, List.isEmpty_iff, beq_iff_eq, not_or] at h
  have h3 : 0 < urls.length := List.length_pos.mpr h.1
  simp only [List.length_drop]
  omega

-- ===== Extraction-side inline image materialization =====

/-- The collect-if-truthy loop shared by the scrapers:
`const b = await imageToBase64(u); if (b) out.push(b);`.  A null resolution or
an empty string (both falsy) is skipped. -/
def collectInline (toInline : String → Option String) (urls : List String) : List String :=
  urls.filterMap fun u =>
    match toInline u with
    | some s => if s = "" then none else some s
    | none => none

/-- Inline images of scrapeTwitter (lines 486-490): the scraped image URLs are
capped with `slice(0, 4)` before materialization. -/
def twitterInlineImages (toInline : String → Option String) (images : List String) :
    List String :=
  collectInline toInline (images.take 4)

/-- Full-resolution upgrade of scrapeTwitter (lines 492-501). -/
def twitterOriginalImageUrls (images : List String) : List String :=
  images.map fun u =>
    if jsIncludes u "pbs.twimg.com/media" then
      (⟨(jsSplit '?' u.data).headD []⟩ : String) ++ "?format=jpg&name=4096x4096"
    else u

/-- Per-tweet inline images of scrapeTwitterThread (lines 604-615), also capped
with `slice(0, 4)`. -/
def threadInlineImages (toInline : String → Option String) (images : List String) :
    List String :=
  collectInline toInline (images.take 4)

/-- Inline images of scrapeMacrumors (lines 699-703), capped with `slice(0, 4)`. -/
def macrumorsInlineImages (toInline : String → Option String) (images : List String) :
    List String :=
  collectInline toInline (images.take 4)

/-- Author projection of a Bluesky API post; absent JS fields are the empty
string, which is falsy in every use the source makes of them. -/
structure BskyAuthor where
  displayName : String := ""
  handle : String := ""
  avatar : String := ""
deriving Repr, DecidableEq

/-- One entry of `post.embed.images`. -/
structure BskyImage where
  fullsize : String := ""
  thumb : String := ""
deriving Repr, DecidableEq

/-- The external embed of a Bluesky post. -/
structure BskyExternal where
  thumb : String := ""
deriving Repr, DecidableEq

/-- The embed of a Bluesky post. -/
structure BskyEmbed where
  images : Option (List BskyImage) := none
  external : Option BskyExternal := none
deriving Repr, DecidableEq

/-- The record of a Bluesky post. -/
structure BskyRecord where
  text : String := ""
  createdAt : String := ""
deriving Repr, DecidableEq

/-- A Bluesky API post as formatBlueskyPost reads it. -/
structure BskyPost where
  author : BskyAuthor := {}
  embed : Option BskyEmbed := none
  record : BskyRecord := {}
  indexedAt : String := ""
  replyCount : Nat := 0
  repostCount : Nat := 0
  likeCount : Nat := 0
deriving Repr, DecidableEq

/-- The image URL list formatBlueskyPost builds (lines 780-790): every embedded
image (fullsize, falling back to thumb), then the external thumbnail when
present.  No cap is applied. -/
def bskyImageList (post : BskyPost) : List String :=
  (match post.embed with
   | none => []
   | some e =>
     (match e.images with
      | some imgs => imgs.map fun i => jsOr i.fullsize i.thumb
      | none => [])
       ++ (match e.external with
           | some x => if x.thumb = "" then [] else [x.thumb]
           | none => []))

/-- Model of formatBlueskyPost (lines 775-817).  `toInline` is the
imageToBase64 boundary (it resolves a data URI or null and never the empty
string).  Note the inline image loop (lines 792-796) runs over the full image
list with no cap. -/
def formatBlueskyPost (toInline : String → Option String) (post : BskyPost) (url : String) :
    BlueskyData :=
  let avatarUrl := post.author.avatar
  let images := bskyImageList post
  { author := { name := jsOr (jsOr post.author.displayName post.author.handle) "Unknown",
                handle := jsOr post.author.handle "unknown",
                avatar := toInline avatarUrl,
                avatarUrl := avatarUrl },
    content := post.record.text,
    images := collectInline toInline images,
    originalImageUrls := images,
    timestamp := jsOr post.record.createdAt post.indexedAt,
    metrics := { replies := post.replyCount, reposts := post.repostCount, likes := post.likeCount },
    url := url }

/-- One Mastodon media attachment as scrapeMastodon reads it. -/
structure MediaAttachment where
  mtype : String := ""
  url : String := ""
  preview_url : String := ""
deriving Repr, DecidableEq

/-- The image URL list scrapeMastodon builds from the media attachments
(lines 841-851). -/
def mastodonImageList (atts : List MediaAttachment) : List String :=
  atts.filterMap fun m =>
    if m.mtype = "image" ∨ m.mtype = "gifv" then some (jsOr m.url m.preview_url)
    else if m.mtype = "video" then some m.preview_url
    else none

/-- Inline images of scrapeMastodon (lines 853-857): the loop runs over the full
attachment-derived list with no cap. -/
def mastodonInlineImages (toInline : String → Option String) (atts : List MediaAttachment) :
    List String :=
  collectInline toInline (mastodonImageList atts)

-- ===== Decimal representation facts (for the filename collision analysis) =====

/-- Numeric value of a decimal digit character. -/
def digitVal (c : Char) : Nat := c.toNat - 48

/-- Value of a most-significant-first decimal digit string. -/
def digitsVal (l : List Char) : Nat := l.foldl (fun a c => a * 10 + digitVal c) 0

-- ===== Shape relations for the escaping analysis =====

/-- Two thread tweets that may differ only in their user-supplied text fields
(name, handle, content): everything the templates branch on or embed raw is
held equal. -/
def sameTweetShape (t t' : ThreadTweet) : Prop :=
  t.author.avatar = t'.author.avatar ∧ t.images = t'.images
    ∧ t.timestamp = t'.timestamp ∧ t.isMainTweet = t'.isMainTweet

/-- Two payloads of the same platform that may differ only in user-supplied
text fields.  Inline images, avatars, thumbnails, metrics and timestamps are
held equal (they are not user text); for MacRumors the post number is also held
equal, because the templates interpolate it verbatim (see the C1 analysis), and
the emptiness of the reactions field is preserved because the template branches
on it. -/
def sameRenderShape : PostData → PostData → Prop
  | .twitter d, .twitter d' =>
      d.author.avatar = d'.author.avatar ∧ d.author.verified = d'.author.verified
        ∧ d.images = d'.images ∧ d.timestamp = d'.timestamp ∧ d.metrics = d'.metrics
  | .thread d, .thread d' => List.Forall₂ sameTweetShape d.tweets d'.tweets
  | .macrumors d, .macrumors d' =>
      d.author.avatar = d'.author.avatar ∧ d.images = d'.images ∧ d.timestamp = d'.timestamp
        ∧ d.postNumber = d'.postNumber ∧ (d.reactions = "" ↔ d'.reactions = "")
  | .bluesky d, .bluesky d' =>
      d.author.avatar = d'.author.avatar ∧ d.images = d'.images
        ∧ d.timestamp = d'.timestamp ∧ d.metrics = d'.metrics
  | .mastodon d, .mastodon d' =>
      d.author.avatar = d'.author.avatar ∧ d.images = d'.images
        ∧ d.timestamp = d'.timestamp ∧ d.metrics = d'.metrics
  | .threadsApp d, .threadsApp d' =>
      d.author.avatar = d'.author.avatar ∧ d.author.verified = d'.author.verified
        ∧ d.images = d'.images ∧ d.timestamp = d'.timestamp ∧ d.metrics = d'.metrics
  | .article d, .article d' => d.image = d'.image ∧ d.favicon = d'.favicon
  | .youtube d, .youtube d' => d.thumbnail = d'.thumbnail
  | .tiktok d, .tiktok d' => d.thumbnail = d'.thumbnail
  | _, _ => False

-- ===== Thread block factoring (for the connector-line analysis) =====

/-- The connector element `<div class="connector-line"></div>` emitted after
every non-last tweet block. -/
def connectorLine : String := "<div class=\"connector-line\"></div>"

/-- Everything of a standard thread tweet block before the connector slot. -/
def threadTweetA (t : ThreadTweet) : String :=
  ttB0 ++ (if t.isMainTweet then "main-tweet" else "") ++ ttB1 ++
    (match t.author.avatar with
     | some av => "<img class=\"avatar\" src=\"" ++ av ++ "\" alt=\"Avatar\">"
     | none => "<div class=\"avatar placeholder\"></div>") ++ ttB2

/-- Everything of a standard thread tweet block after the connector slot. -/
def threadTweetB (relTime : String → String) (t : ThreadTweet) : String :=
  let imagesHtml := if 0 < t.images.length then
      ttI0 ++ (if 1 < t.images.length then "grid" else "") ++ ttI1 ++
        joinAll (t.images.map (fun img => "<img src=\"" ++ img ++ "\" alt=\"Tweet image\">")) ++
        ttI2
    else ""
  ttB3 ++ escapeHtml t.author.name ++ ttB4 ++ escapeHtml t.author.handle ++ ttB5 ++
    relTime t.timestamp ++ ttB6 ++ escapeHtml t.content ++ ttB7 ++ imagesHtml ++ ttB8

/-- Everything of a bento thread tweet block before the connector slot. -/
def bentoThreadTweetA (t : ThreadTweet) : String :=
  bttB0 ++
    (match t.author.avatar with
     | some av => "<img class=\"avatar\" src=\"" ++ av ++ "\" alt=\"Avatar\">"
     | none => "<div class=\"avatar placeholder\"></div>") ++ bttB1

/-- Everything of a bento thread tweet block after the connector slot. -/
def bentoThreadTweetB (relTime : String → String) (t : ThreadTweet) : String :=
  let imagesHtml := if 0 < t.images.length then
      bttI0 ++ (if 1 < t.images.length then "grid" else "") ++ bttI1 ++
        joinAll (t.images.map (fun img => "<img src=\"" ++ img ++ "\" alt=\"Tweet image\">")) ++
        bttI2
    else ""
  bttB2 ++ escapeHtml t.author.name ++ bttB3 ++ escapeHtml t.author.handle ++ bttB4 ++
    escapeHtml t.content ++ bttB5 ++ imagesHtml ++ bttB6

/-- The tweet block list of the standard thread card, in payload order; block
`i` is last exactly when `i = tweets.length - 1`. -/
def threadBlocks (relTime : String → String) (d : ThreadData) : List String :=
  mapIdxFrom (fun t i => threadTweetBlock relTime t (decide (i = d.tweets.length - 1)))
    d.tweets 0

/-- The tweet block list of the bento thread card. -/
def bentoThreadBlocks (relTime : String → String) (d : ThreadData) : List String :=
  mapIdxFrom (fun t i => bentoThreadTweetBlock relTime t (decide (i = d.tweets.length - 1)))
    d.tweets 0

/-- Number of (possibly overlapping) occurrences of `pat` in a character list,
accumulated tail-recursively. -/
def countSubAcc (pat : List Char) : Nat → List Char → Nat
  | acc, [] => acc
  | acc, c :: r =>
    if pat.isPrefixOf (c :: r) then countSubAcc pat (acc + 1) r
    else countSubAcc pat acc r

/-- Number of (possibly overlapping) occurrences of `pat` in a character list. -/
def countSub (pat l : List Char) : Nat := countSubAcc pat 0 l

-- ===== Concrete fixtures used by witnesses and counterexamples =====

/-- Constant relative-time rendering used for concrete evaluation. -/
def rtSample : String → String := fun _ => "2h"

/-- First tweet of the concrete three-post thread scenario. -/
def sT0 : ThreadTweet :=
  { author := { name := "Ana", handle := "ana" }, content := "first", isMainTweet := true }

/-- Second tweet of the scenario. -/
def sT1 : ThreadTweet := { author := { name := "Bob", handle := "bob" }, content := "second" }

/-- Third tweet of the scenario. -/
def sT2 : ThreadTweet := { author := { name := "Cyd", handle := "cyd" }, content := "third" }

/-- A three-tweet thread in document order, as in the concrete scenario of the
specification. -/
def sampleThread3 : ThreadData :=
  { tweets := [sT0, sT1, sT2], url := "https://x.com/ana/status/1" }

/-- MacRumors payload with a plain post number. -/
def mrCexA : MacrumorsData :=
  { author := { name := "Sam", title := "member" }, content := "Nice build",
    postNumber := "12", timestamp := "", reactions := "" }

/-- The same payload with markup smuggled into the post number. -/
def mrCexB : MacrumorsData := { mrCexA with postNumber := "<12>" }

/-- Oracle whose every network request yields a 404 response with body bytes
`nf` and no content-type header. -/
def get404 : String → HttpResp := fun _ => HttpResp.resp 404 "" "" [110, 102]

/-- Oracle whose every network request fails with the error event. -/
def getFail : String → HttpResp := fun _ => HttpResp.fail

/-- Inline materialization stub that always succeeds, for concrete evaluation
of the extraction-side image lists. -/
def toInlineId : String → Option String := fun u => some ("data:" ++ u)

/-- A Bluesky post whose embed carries five images (the public API caps at
four, but nothing in this code enforces any cap). -/
def bskyPost5 : BskyPost :=
  { author := { displayName := "Eve", handle := "eve.bsky.social", avatar := "" },
    embed := some
      { images := some [ ({ fullsize := "u1" } : BskyImage), { fullsize := "u2" },
                         { fullsize := "u3" }, { fullsize := "u4" }, { fullsize := "u5" } ],
        external := none },
    record := { text := "hello", createdAt := "2026-01-01T00:00:00Z" } }

/-- Five Mastodon image attachments. -/
def mstAtts5 : List MediaAttachment :=
  [ { mtype := "image", url := "m1" }, { mtype := "image", url := "m2" },
    { mtype := "image", url := "m3" }, { mtype := "image", url := "m4" },
    { mtype := "image", url := "m5" } ]

/-- Oracle for which every scraper throws, used to exercise the failure path of
processUrl. -/
def oracleFail : Oracle :=
  { twitter := fun _ => .error "Could not fetch tweet: boom",
    twitterThread := fun _ => .error "Could not fetch thread: boom",
    macrumors := fun _ => .error "boom",
    bluesky := fun _ => .error "boom",
    mastodon := fun _ => .error "boom",
    threadsApp := fun _ => .error "boom",
    articleS := fun _ => .error "boom",
    youtube := fun _ => .error "boom",
    tiktok := fun _ => .error "boom",
    screenshot := fun _ _ => .ok (),
    download := fun _ _ => none,
    writeMetadata := fun _ => .ok () }

/-- Oracle for which every stage succeeds with fixed data. -/
def oracleOk : Oracle :=
  { twitter := fun u => .ok { author := { name := "Ana", handle := "ana" },
                              content := "hi", url := u },
    twitterThread := fun u => .ok { tweets := sampleThread3.tweets, url := u },
    macrumors := fun u => .ok { author := { name := "Sam" }, content := "post", url := u },
    bluesky := fun u => .ok { author := { name := "Eve", handle := "eve" },
                              content := "post", url := u },
    mastodon := fun u => .ok { author := { name := "Mia", handle := "@mia@m.social" },
                               content := "post", url := u },
    threadsApp := fun u => .ok { author := { name := "Thea", handle := "thea" },
                                 content := "post", url := u },
    articleS := fun u => .ok { siteName := "Cult of Mac", title := "T",
                               description := "D", url := u },
    youtube := fun u => .ok { author := { name := "Yt" }, title := "V", url := u },
    tiktok := fun u => .ok { author := { name := "Tk", handle := "@tk" }, title := "V", url := u },
    screenshot := fun _ _ => .ok (),
    download := fun _ _ => none,
    writeMetadata := fun _ => .ok () }

-- ===== Substring-count decomposition machinery =====

def noSpan (pat a b : List Char) : Prop :=
  ∀ k, k < pat.length → 0 < k →
    ¬ ((pat.take k).isSuffixOf a = true ∧ (pat.drop k).isPrefixOf b = true)

instance (pat a b : List Char) : Decidable (noSpan pat a b) :=
  Nat.decidableBallLT pat.length _

-- ===== Theorems =====

theorem countChar_append (c : Char) (a b : String) :
    countChar c (a ++ b) = countChar c a + countChar c b := by
  simp [countChar, String.data_append, List.count_append]

theorem escChar_count_lt (c : Char) : (escChar c).count '<' = 0 := by
  unfold escChar
  split
  · decide
  · split
    · decide
    · split
      · decide
      · split
        · decide
        · split
          · decide
          · rename_i h1 h2 h3 h4 h5
            simp [List.count_cons, List.count_nil]
            intro h; exact absurd h h2

theorem escChar_count_gt (c : Char) : (escChar c).count '>' = 0 := by
  unfold escChar
  split
  · decide
  · split
    · decide
    · split
      · decide
      · split
        · decide
        · split
          · decide
          · rename_i h1 h2 h3 h4 h5
            simp [List.count_cons, List.count_nil]
            intro h; exact absurd h h3

theorem countChar_escapeHtml_lt (s : String) : countChar '<' (escapeHtml s) = 0 := by
  show (escapeHtmlL s.data).count '<' = 0
  induction s.data with
  | nil => rfl
  | cons c l ih =>
    simp only [escapeHtmlL, List.count_append, ih, Nat.add_zero, escChar_count_lt]

theorem countChar_escapeHtml_gt (s : String) : countChar '>' (escapeHtml s) = 0 := by
  show (escapeHtmlL s.data).count '>' = 0
  induction s.data with
  | nil => rfl
  | cons c l ih =>
    simp only [escapeHtmlL, List.count_append, ih, Nat.add_zero, escChar_count_gt]

theorem digitVal_digitChar {k : Nat} (h : k < 10) : digitVal (Nat.digitChar k) = k := by
  interval_cases k <;> rfl

theorem digitChar_isDigit {k : Nat} (h : k < 10) : (Nat.digitChar k).isDigit = true := by
  interval_cases k <;> rfl

theorem toDigitsCore_append (b fuel : Nat) :
    ∀ (n : Nat) (acc : List Char),
      Nat.toDigitsCore b fuel n acc = Nat.toDigitsCore b fuel n [] ++ acc := by
  induction fuel with
  | zero => intro n acc; simp [Nat.toDigitsCore]
  | succ f ih =>
    intro n acc
    simp only [Nat.toDigitsCore]
    by_cases h : n / b = 0
    · simp [h]
    · simp only [h, if_false]
      rw [ih (n / b) (Nat.digitChar (n % b) :: acc), ih (n / b) [Nat.digitChar (n % b)]]
      simp

theorem toDigitsCore_spec :
    ∀ (fuel n : Nat), n < 10 ^ fuel → 0 < fuel →
      digitsVal (Nat.toDigitsCore 10 fuel n []) = n
        ∧ (∀ c ∈ Nat.toDigitsCore 10 fuel n [], c.isDigit = true)
        ∧ Nat.toDigitsCore 10 fuel n [] ≠ [] := by
  intro fuel
  induction fuel with
  | zero => intro n _ h0; omega
  | succ f ih =>
    intro n hlt _
    simp only [Nat.toDigitsCore]
    by_cases h : n / 10 = 0
    · have hn : n < 10 := by omega
      have hmod : n % 10 = n := Nat.mod_eq_of_lt hn
      simp only [h, if_true, hmod]
      refine ⟨?_, ?_, by simp⟩
      · simp [digitsVal, digitVal_digitChar hn]
      · intro c hc
        simp only [List.mem_singleton] at hc
        subst hc
        exact digitChar_isDigit hn
    · have hf : 0 < f := by
        by_contra hf0
        have : f = 0 := by omega
        subst this
        have : n < 10 := by simpa using hlt
        omega
      have hdiv : n / 10 < 10 ^ f := by
        have : n < 10 * 10 ^ f := by
          have := hlt
          rw [pow_succ] at this
          omega
        omega
      obtain ⟨hval, hdig, hne⟩ := ih (n / 10) hdiv hf
      simp only [h, if_false]
      rw [toDigitsCore_append]
      have hmod : n % 10 < 10 := Nat.mod_lt _ (by omega)
      refine ⟨?_, ?_, by simp⟩
      · simp only [digitsVal, List.foldl_append, List.foldl_cons, List.foldl_nil]
        show digitsVal (Nat.toDigitsCore 10 f (n / 10) []) * 10
            + digitVal (Nat.digitChar (n % 10)) = n
        rw [hval, digitVal_digitChar hmod]
        omega
      · intro c hc
        rcases List.mem_append.mp hc with hc | hc
        · exact hdig c hc
        · simp only [List.mem_singleton] at hc
          subst hc
          exact digitChar_isDigit hmod

theorem natRepr_spec (n : Nat) :
    digitsVal (Nat.repr n).data = n ∧ ∀ c ∈ (Nat.repr n).data, c.isDigit = true := by
  have hlt : n < 10 ^ (n + 1) := by
    calc n < 10 ^ n := Nat.lt_pow_self (by norm_num) n
    _ ≤ 10 ^ (n + 1) := Nat.pow_le_pow_right (by norm_num) (Nat.le_succ n)
  have h := toDigitsCore_spec (n + 1) n hlt (Nat.succ_pos n)
  exact ⟨h.1, h.2.1⟩

theorem natRepr_inj {m n : Nat} (h : Nat.repr m = Nat.repr n) : m = n := by
  have hm := (natRepr_spec m).1
  have hn := (natRepr_spec n).1
  rw [← hm, ← hn, h]

theorem natRepr_no_hyphen (n : Nat) : '-' ∉ (Nat.repr n).data := by
  intro hmem
  have := (natRepr_spec n).2 '-' hmem
  simp [Char.isDigit] at this

/-- Splitting a hyphen-separated concatenation is unambiguous when the parts
before the hyphen are hyphen-free. -/
theorem append_hyphen_inj :
    ∀ (a a' r r' : List Char), '-' ∉ a → '-' ∉ a' →
      a ++ '-' :: r = a' ++ '-' :: r' → a = a' ∧ r = r' := by
  intro a
  induction a with
  | nil =>
    intro a' r r' _ ha' h
    cases a' with
    | nil => simpa using h
    | cons c t =>
      simp only [List.nil_append, List.cons_append, List.cons.injEq] at h
      exact absurd (h.1 ▸ List.mem_cons_self c t) ha'
  | cons c t ih =>
    intro a' r r' ha ha' h
    cases a' with
    | nil =>
      simp only [List.cons_append, List.nil_append, List.cons.injEq] at h
      exact absurd (h.1 ▸ List.mem_cons_self c t) ha
    | cons c' t' =>
      simp only [List.cons_append, List.cons.injEq] at h
      obtain ⟨rfl, h2⟩ := h
      have := ih t' r r' (fun hm => ha (List.mem_cons_of_mem _ hm))
        (fun hm => ha' (List.mem_cons_of_mem _ hm)) h2
      exact ⟨by rw [this.1], this.2⟩

theorem urlFragment_no_hyphen (url : String) : '-' ∉ (urlFragment url).data := by
  intro hmem
  have : '-' ∈ (((jsSplit '/' url.data).getLastD []).filter isAlphaNumAscii) := by
    exact List.mem_of_mem_take hmem
  have := (List.mem_filter.mp this).2
  simp [isAlphaNumAscii, Char.isAlpha, Char.isUpper, Char.isLower, Char.isDigit] at this

-- ===== Theorems: escaping facts about escapeHtml =====

theorem entityOk_escChar_append (c : Char) (rest : List Char) (h : entityOk rest = true) :
    entityOk (escChar c ++ rest) = true := by
  unfold escChar
  split
  · exact h
  · split
    · exact h
    · split
      · exact h
      · split
        · exact h
        · split
          · exact h
          · rename_i h1 h2 h3 h4 h5
            show entityOk (c :: rest) = true
            unfold entityOk
            rw [if_neg h1]
            exact h

theorem entityOk_escapeHtmlL (l : List Char) : entityOk (escapeHtmlL l) = true := by
  induction l with
  | nil => rfl
  | cons c r ih => exact entityOk_escChar_append c _ ih

-- ===== Theorems: per-renderer count invariance under user-text changes =====

theorem countChar_renderTwitterCard (c : Char) (rt : String → String) (d d' : TwitterData)
    (hav : d.author.avatar = d'.author.avatar) (hv : d.author.verified = d'.author.verified)
    (him : d.images = d'.images) (hts : d.timestamp = d'.timestamp) (hm : d.metrics = d'.metrics)
    (hc : ∀ s, countChar c (escapeHtml s) = 0) :
    countChar c (renderTwitterCard rt d) = countChar c (renderTwitterCard rt d') := by
  simp only [renderTwitterCard, hav, hv, him, hts, hm, countChar_append, hc]

theorem countChar_renderBentoTwitterCard (c : Char) (rt : String → String) (d d' : TwitterData)
    (hav : d.author.avatar = d'.author.avatar)
    (him : d.images = d'.images) (hts : d.timestamp = d'.timestamp) (hm : d.metrics = d'.metrics)
    (hc : ∀ s, countChar c (escapeHtml s) = 0) :
    countChar c (renderBentoTwitterCard rt d) = countChar c (renderBentoTwitterCard rt d') := by
  simp only [renderBentoTwitterCard, hav, him, hts, hm, countChar_append, hc]

theorem countChar_renderMacrumorsCard (c : Char) (rt : String → String) (d d' : MacrumorsData)
    (hav : d.author.avatar = d'.author.avatar) (him : d.images = d'.images)
    (hts : d.timestamp = d'.timestamp) (hpn : d.postNumber = d'.postNumber)
    (hrx : d.reactions = "" ↔ d'.reactions = "")
    (hc : ∀ s, countChar c (escapeHtml s) = 0) :
    countChar c (renderMacrumorsCard rt d) = countChar c (renderMacrumorsCard rt d') := by
  by_cases hr : d.reactions = ""
  · have hr' : d'.reactions = "" := hrx.mp hr
    simp only [renderMacrumorsCard, hav, him, hts, hpn, if_pos hr, if_pos hr',
      countChar_append, hc]
  · have hr' : ¬ d'.reactions = "" := fun h => hr (hrx.mpr h)
    simp only [renderMacrumorsCard, hav, him, hts, hpn, if_neg hr, if_neg hr',
      countChar_append, hc]

theorem countChar_renderBentoMacrumorsCard (c : Char) (rt : String → String)
    (d d' : MacrumorsData)
    (hav : d.author.avatar = d'.author.avatar) (him : d.images = d'.images)
    (hpn : d.postNumber = d'.postNumber) (hrx : d.reactions = "" ↔ d'.reactions = "")
    (hc : ∀ s, countChar c (escapeHtml s) = 0) :
    countChar c (renderBentoMacrumorsCard rt d) = countChar c (renderBentoMacrumorsCard rt d') := by
  by_cases hr : d.reactions = ""
  · have hr' : d'.reactions = "" := hrx.mp hr
    simp only [renderBentoMacrumorsCard, hav, him, hpn, if_pos hr, if_pos hr',
      countChar_append, hc]
  · have hr' : ¬ d'.reactions = "" := fun h => hr (hrx.mpr h)
    simp only [renderBentoMacrumorsCard, hav, him, hpn, if_neg hr, if_neg hr',
      countChar_append, hc]

theorem countChar_renderBlueskyCard (c : Char) (rt : String → String) (d d' : BlueskyData)
    (hav : d.author.avatar = d'.author.avatar) (him : d.images = d'.images)
    (hts : d.timestamp = d'.timestamp) (hm : d.metrics = d'.metrics)
    (hc : ∀ s, countChar c (escapeHtml s) = 0) :
    countChar c (renderBlueskyCard rt d) = countChar c (renderBlueskyCard rt d') := by
  simp only [renderBlueskyCard, hav, him, hts, hm, countChar_append, hc]

theorem countChar_renderBentoBlueskyCard (c : Char) (rt : String → String) (d d' : BlueskyData)
    (hav : d.author.avatar = d'.author.avatar) (him : d.images = d'.images)
    (hm : d.metrics = d'.metrics)
    (hc : ∀ s, countChar c (escapeHtml s) = 0) :
    countChar c (renderBentoBlueskyCard rt d) = countChar c (renderBentoBlueskyCard rt d') := by
  simp only [renderBentoBlueskyCard, hav, him, hm, countChar_append, hc]

theorem countChar_renderMastodonCard (c : Char) (rt : String → String) (d d' : MastodonData)
    (hav : d.author.avatar = d'.author.avatar) (him : d.images = d'.images)
    (hm : d.metrics = d'.metrics)
    (hc : ∀ s, countChar c (escapeHtml s) = 0) :
    countChar c (renderMastodonCard rt d) = countChar c (renderMastodonCard rt d') := by
  simp only [renderMastodonCard, hav, him, hm, countChar_append, hc]

theorem countChar_renderBentoMastodonCard (c : Char) (rt : String → String) (d d' : MastodonData)
    (hav : d.author.avatar = d'.author.avatar) (him : d.images = d'.images)
    (hm : d.metrics = d'.metrics)
    (hc : ∀ s, countChar c (escapeHtml s) = 0) :
    countChar c (renderBentoMastodonCard rt d) = countChar c (renderBentoMastodonCard rt d') := by
  simp only [renderBentoMastodonCard, hav, him, hm, countChar_append, hc]

theorem countChar_renderArticleCard (c : Char) (rt : String → String) (d d' : ArticleData)
    (him : d.image = d'.image) (hfv : d.favicon = d'.favicon)
    (hc : ∀ s, countChar c (escapeHtml s) = 0) :
    countChar c (renderArticleCard rt d) = countChar c (renderArticleCard rt d') := by
  simp only [renderArticleCard, him, hfv, countChar_append, hc]

theorem countChar_renderBentoArticleCard (c : Char) (rt : String → String) (d d' : ArticleData)
    (him : d.image = d'.image) (hfv : d.favicon = d'.favicon)
    (hc : ∀ s, countChar c (escapeHtml s) = 0) :
    countChar c (renderBentoArticleCard rt d) = countChar c (renderBentoArticleCard rt d') := by
  simp only [renderBentoArticleCard, him, hfv, countChar_append, hc]

theorem countChar_renderYouTubeCard (c : Char) (rt : String → String) (d d' : VideoData)
    (hth : d.thumbnail = d'.thumbnail)
    (hc : ∀ s, countChar c (escapeHtml s) = 0) :
    countChar c (renderYouTubeCard rt d) = countChar c (renderYouTubeCard rt d') := by
  simp only [renderYouTubeCard, hth, countChar_append, hc]

theorem countChar_renderBentoYouTubeCard (c : Char) (rt : String → String) (d d' : VideoData)
    (hth : d.thumbnail = d'.thumbnail)
    (hc : ∀ s, countChar c (escapeHtml s) = 0) :
    countChar c (renderBentoYouTubeCard rt d) = countChar c (renderBentoYouTubeCard rt d') := by
  simp only [renderBentoYouTubeCard, hth, countChar_append, hc]

theorem countChar_renderTikTokCard (c : Char) (rt : String → String) (d d' : VideoData)
    (hth : d.thumbnail = d'.thumbnail)
    (hc : ∀ s, countChar c (escapeHtml s) = 0) :
    countChar c (renderTikTokCard rt d) = countChar c (renderTikTokCard rt d') := by
  simp only [renderTikTokCard, hth, countChar_append, hc]

theorem countChar_renderBentoTikTokCard (c : Char) (rt : String → String) (d d' : VideoData)
    (hth : d.thumbnail = d'.thumbnail)
    (hc : ∀ s, countChar c (escapeHtml s) = 0) :
    countChar c (renderBentoTikTokCard rt d) = countChar c (renderBentoTikTokCard rt d') := by
  simp only [renderBentoTikTokCard, hth, countChar_append, hc]

theorem countChar_threadTweetBlock (c : Char) (rt : String → String) (t t' : ThreadTweet)
    (isLast : Bool) (h : sameTweetShape t t')
    (hc : ∀ s, countChar c (escapeHtml s) = 0) :
    countChar c (threadTweetBlock rt t isLast) = countChar c (threadTweetBlock rt t' isLast) := by
  obtain ⟨h1, h2, h3, h4⟩ := h
  simp only [threadTweetBlock, h1, h2, h3, h4, countChar_append, hc]

theorem countChar_bentoThreadTweetBlock (c : Char) (rt : String → String) (t t' : ThreadTweet)
    (isLast : Bool) (h : sameTweetShape t t')
    (hc : ∀ s, countChar c (escapeHtml s) = 0) :
    countChar c (bentoThreadTweetBlock rt t isLast)
      = countChar c (bentoThreadTweetBlock rt t' isLast) := by
  obtain ⟨h1, h2, h3, h4⟩ := h
  simp only [bentoThreadTweetBlock, h1, h2, h3, h4, countChar_append, hc]

theorem countChar_threadJoin (c : Char) (rt : String → String) (m : Nat)
    {ts ts' : List ThreadTweet} (h : List.Forall₂ sameTweetShape ts ts')
    (hc : ∀ s, countChar c (escapeHtml s) = 0) :
    ∀ k : Nat,
      countChar c (joinAll (mapIdxFrom
          (fun t i => threadTweetBlock rt t (decide (i = m))) ts k))
        = countChar c (joinAll (mapIdxFrom
            (fun t i => threadTweetBlock rt t (decide (i = m))) ts' k)) := by
  induction h with
  | nil => intro k; rfl
  | cons hrel htail ih =>
    intro k
    simp only [mapIdxFrom, joinAll, countChar_append]
    rw [countChar_threadTweetBlock c rt _ _ _ hrel hc, ih (k + 1)]

theorem countChar_bentoThreadJoin (c : Char) (rt : String → String) (m : Nat)
    {ts ts' : List ThreadTweet} (h : List.Forall₂ sameTweetShape ts ts')
    (hc : ∀ s, countChar c (escapeHtml s) = 0) :
    ∀ k : Nat,
      countChar c (joinAll (mapIdxFrom
          (fun t i => bentoThreadTweetBlock rt t (decide (i = m))) ts k))
        = countChar c (joinAll (mapIdxFrom
            (fun t i => bentoThreadTweetBlock rt t (decide (i = m))) ts' k)) := by
  induction h with
  | nil => intro k; rfl
  | cons hrel htail ih =>
    intro k
    simp only [mapIdxFrom, joinAll, countChar_append]
    rw [countChar_bentoThreadTweetBlock c rt _ _ _ hrel hc, ih (k + 1)]

theorem countChar_renderTwitterThreadCard (c : Char) (rt : String → String) (d d' : ThreadData)
    (h : List.Forall₂ sameTweetShape d.tweets d'.tweets)
    (hc : ∀ s, countChar c (escapeHtml s) = 0) :
    countChar c (renderTwitterThreadCard rt d) = countChar c (renderTwitterThreadCard rt d') := by
  have hlen : d.tweets.length = d'.tweets.length := h.length_eq
  simp only [renderTwitterThreadCard, countChar_append, hlen]
  rw [countChar_threadJoin c rt (d'.tweets.length - 1) h hc 0]

theorem countChar_renderBentoTwitterThreadCard (c : Char) (rt : String → String)
    (d d' : ThreadData)
    (h : List.Forall₂ sameTweetShape d.tweets d'.tweets)
    (hc : ∀ s, countChar c (escapeHtml s) = 0) :
    countChar c (renderBentoTwitterThreadCard rt d)
      = countChar c (renderBentoTwitterThreadCard rt d') := by
  have hlen : d.tweets.length = d'.tweets.length := h.length_eq
  simp only [renderBentoTwitterThreadCard, countChar_append, hlen]
  rw [countChar_bentoThreadJoin c rt (d'.tweets.length - 1) h hc 0]

theorem countChar_renderCard (c : Char) (rt : String → String) (bento : Bool)
    (p p' : PostData) (h : sameRenderShape p p')
    (hc : ∀ s, countChar c (escapeHtml s) = 0) :
    countChar c (renderCard rt bento p) = countChar c (renderCard rt bento p') := by
  cases p <;> cases p' <;> try exact h.elim
  case twitter.twitter d d' =>
    obtain ⟨hav, hv, him, hts, hm⟩ := h
    cases bento
    · exact countChar_renderTwitterCard c rt d d' hav hv him hts hm hc
    · exact countChar_renderBentoTwitterCard c rt d d' hav him hts hm hc
  case thread.thread d d' =>
    cases bento
    · exact countChar_renderTwitterThreadCard c rt d d' h hc
    · exact countChar_renderBentoTwitterThreadCard c rt d d' h hc
  case macrumors.macrumors d d' =>
    obtain ⟨hav, him, hts, hpn, hrx⟩ := h
    cases bento
    · exact countChar_renderMacrumorsCard c rt d d' hav him hts hpn hrx hc
    · exact countChar_renderBentoMacrumorsCard c rt d d' hav him hpn hrx hc
  case bluesky.bluesky d d' =>
    obtain ⟨hav, him, hts, hm⟩ := h
    cases bento
    · exact countChar_renderBlueskyCard c rt d d' hav him hts hm hc
    · exact countChar_renderBentoBlueskyCard c rt d d' hav him hm hc
  case mastodon.mastodon d d' =>
    obtain ⟨hav, him, hts, hm⟩ := h
    cases bento
    · exact countChar_renderMastodonCard c rt d d' hav him hm hc
    · exact countChar_renderBentoMastodonCard c rt d d' hav him hm hc
  case threadsApp.threadsApp d d' =>
    obtain ⟨hav, hv, him, hts, hm⟩ := h
    cases bento
    · exact countChar_renderTwitterCard c rt d d' hav hv him hts hm hc
    · exact countChar_renderBentoTwitterCard c rt d d' hav him hts hm hc
  case article.article d d' =>
    obtain ⟨him, hfv⟩ := h
    cases bento
    · exact countChar_renderArticleCard c rt d d' him hfv hc
    · exact countChar_renderBentoArticleCard c rt d d' him hfv hc
  case youtube.youtube d d' =>
    cases bento
    · exact countChar_renderYouTubeCard c rt d d' h hc
    · exact countChar_renderBentoYouTubeCard c rt d d' h hc
  case tiktok.tiktok d d' =>
    cases bento
    · exact countChar_renderTikTokCard c rt d d' h hc
    · exact countChar_renderBentoTikTokCard c rt d d' h hc

-- ===== Claim C1 =====

/-- C1 (amended): for every supported platform and well-formed payload,
rendering the card in either variant is a total function of the payload (the
embedding is a Lean function, mirroring a source body of pure string
concatenation that cannot throw), and every user-supplied text field other
than the forum post number reaches the document only through escapeHtml: first,
changing any such text fields (and nothing else, as captured by
sameRenderShape, which also fixes the MacRumors post number) never changes the
number of raw `<` or `>` characters of the rendered document; second, escapeHtml
output contains no `<` and no `>`, and every `&` in it begins one of the five
entities `&amp; &lt; &gt; &quot; &#039;`.  The original claim fails for the
post number, which both MacRumors templates interpolate verbatim (see the
counterexample theorem). -/
theorem C1_render_user_text_escaped :
    (∀ (relTime : String → String) (bento : Bool) (p p' : PostData),
        sameRenderShape p p' →
        countChar '<' (renderCard relTime bento p) = countChar '<' (renderCard relTime bento p')
          ∧ countChar '>' (renderCard relTime bento p)
              = countChar '>' (renderCard relTime bento p'))
      ∧ (∀ s : String, countChar '<' (escapeHtml s) = 0 ∧ countChar '>' (escapeHtml s) = 0
          ∧ entityOk (escapeHtml s).data = true) := by
  constructor
  · intro relTime bento p p' h
    exact ⟨countChar_renderCard '<' relTime bento p p' h countChar_escapeHtml_lt,
      countChar_renderCard '>' relTime bento p p' h countChar_escapeHtml_gt⟩
  · intro s
    exact ⟨countChar_escapeHtml_lt s, countChar_escapeHtml_gt s, entityOk_escapeHtmlL s.data⟩

/-- Witness for C1: two Twitter payloads that differ only in author name and
content (one of them containing raw markup characters) render with identical
raw `<` and `>` counts. -/
theorem C1_render_user_text_escaped_witness :
    countChar '<' (renderCard rtSample false
        (PostData.twitter { author := { name := "Ann" }, content := "a<b" }))
      = countChar '<' (renderCard rtSample false
          (PostData.twitter { author := { name := "Bo" }, content := "x&y" }))
    ∧ countChar '>' (renderCard rtSample false
        (PostData.twitter { author := { name := "Ann" }, content := "a<b" }))
      = countChar '>' (renderCard rtSample false
          (PostData.twitter { author := { name := "Bo" }, content := "x&y" })) :=
  C1_render_user_text_escaped.1 rtSample false _ _ ⟨rfl, rfl, rfl, rfl, rfl⟩

/-- Counterexample for C1 as stated: two MacRumors payloads that differ only in
the forum post number render with different raw `<` counts, so the post number
reaches the document unescaped (both templates interpolate it verbatim,
src/unnamed/part_000 lines 1517 and 2571). -/
theorem C1_counterexample :
    mrCexB = { mrCexA with postNumber := "<12>" }
      ∧ countChar '<' (renderMacrumorsCard rtSample mrCexB)
          ≠ countChar '<' (renderMacrumorsCard rtSample mrCexA) :=
  ⟨rfl, by decide⟩

-- ===== Theorems: scheduler (processInParallel) =====

theorem mapIdxFrom_length (f : α → Nat → β) (l : List α) (k : Nat) :
    (mapIdxFrom f l k).length = l.length := by
  induction l generalizing k with
  | nil => rfl
  | cons a t ih => simp [mapIdxFrom, ih]

theorem mapIdxFrom_getElem? (f : α → Nat → β) (l : List α) (k i : Nat) :
    (mapIdxFrom f l k)[i]? = (l[i]?).map (fun a => f a (k + i)) := by
  induction l generalizing k i with
  | nil => simp [mapIdxFrom]
  | cons a l ih =>
    cases i with
    | zero => simp [mapIdxFrom]
    | succ i => simp [mapIdxFrom, ih, Nat.add_assoc, Nat.add_comm 1 i]

theorem mapIdxFrom_append (f : α → Nat → β) (l1 l2 : List α) (k : Nat) :
    mapIdxFrom f (l1 ++ l2) k = mapIdxFrom f l1 k ++ mapIdxFrom f l2 (k + l1.length) := by
  induction l1 generalizing k with
  | nil => simp [mapIdxFrom]
  | cons a t ih =>
    simp [mapIdxFrom, ih (k + 1), Nat.add_assoc, Nat.add_comm 1 t.length]

theorem mapIdxFrom_shift (f : α → Nat → β) (s : Nat) (l : List α) :
    ∀ k, mapIdxFrom (fun u j => f u (s + j)) l k = mapIdxFrom f l (s + k) := by
  induction l with
  | nil => intro k; rfl
  | cons a t ih => intro k; simp [mapIdxFrom, ih (k + 1), Nat.add_assoc]

theorem processInParallel_eq (f : α → Nat → β) (c : Nat) (hc : 1 ≤ c) :
    ∀ (urls : List α) (start : Nat),
      processInParallel f urls c start = mapIdxFrom f urls start := by
  suffices h : ∀ (n : Nat) (urls : List α), urls.length ≤ n → ∀ start,
      processInParallel f urls c start = mapIdxFrom f urls start by
    intro urls start
    exact h urls.length urls (Nat.le_refl _) start
  intro n
  induction n with
  | zero =>
    intro urls hlen start
    have : urls = [] := List.eq_nil_of_length_eq_zero (Nat.le_zero.mp hlen)
    subst this
    rw [processInParallel]
    rfl
  | succ n ih =>
    intro urls hlen start
    by_cases hnil : urls = []
    · subst hnil
      rw [processInParallel]
      rfl
    · rw [processInParallel]
      have hne : urls.isEmpty = false := by
        simp [List.isEmpty_iff, hnil]
      have hcz : (c == 0) = false := by
        simp; omega
      rw [hne, hcz]
      simp only [Bool.or_self, Bool.false_eq_true, if_false]
      rw [mapIdxFrom_shift f start (urls.take c) 0, Nat.add_zero]
      rw [ih (urls.drop c) (by
        have hpos : 0 < urls.length := List.length_pos.mpr hnil
        simp only [List.length_drop]
        omega) (start + c)]
      by_cases hcl : c ≤ urls.length
      · have htk : (urls.take c).length = c := by
          simp [List.length_take]; omega
        conv_rhs => rw [← List.take_append_drop c urls]
        rw [mapIdxFrom_append, htk]
      · have hdrop : urls.drop c = [] := by
          apply List.drop_eq_nil_of_le
          omega
        have htake : urls.take c = urls := by
          apply List.take_of_length_le
          omega
        rw [hdrop, htake]
        simp [mapIdxFrom]

/-- C3 (confirmed): for every URL list and concurrency bound c >= 1, the batch
scheduler returns exactly one result per input, and the i-th result is the
per-item execution applied to the i-th input URL with global index i; the
definition itself is the wave decomposition of the source (sequential slices of
size at most c, wave results concatenated in order). -/
theorem C3_processInParallel_exact_results :
    ∀ (f : String → Nat → CaptureResult × List FsWrite) (urls : List String) (c : Nat),
      1 ≤ c →
      (processInParallel f urls c 0).length = urls.length
        ∧ ∀ i : Nat, (processInParallel f urls c 0)[i]? = (urls[i]?).map (fun u => f u i) := by
  intro f urls c hc
  rw [processInParallel_eq f c hc urls 0]
  refine ⟨mapIdxFrom_length f urls 0, ?_⟩
  intro i
  rw [mapIdxFrom_getElem?]
  simp

/-- Witness for C3 at a concrete batch of three URLs with concurrency two. -/
theorem C3_processInParallel_exact_results_witness :
    (processInParallel (fun u i => (mkFailure u (Nat.repr i), ([] : List FsWrite)))
        ["a", "b", "c"] 2 0).length = 3
      ∧ ∀ i : Nat,
          (processInParallel (fun u i => (mkFailure u (Nat.repr i), ([] : List FsWrite)))
              ["a", "b", "c"] 2 0)[i]?
            = ((["a", "b", "c"] : List String)[i]?).map
                (fun u => (mkFailure u (Nat.repr i), ([] : List FsWrite))) :=
  C3_processInParallel_exact_results (fun u i => (mkFailure u (Nat.repr i), []))
    ["a", "b", "c"] 2 (by decide)

/-- C6 (confirmed): with a deterministic per-item execution, the batch result
list is identical for every concurrency bound c >= 1 — in particular running
with concurrency 1 and with any N > 1 yields the same success/failure value at
every position, so the scheduler itself introduces no difference. -/
theorem C6_processInParallel_concurrency_invariant :
    ∀ (f : String → Nat → CaptureResult × List FsWrite) (urls : List String) (c c' : Nat),
      1 ≤ c → 1 ≤ c' →
      processInParallel f urls c 0 = processInParallel f urls c' 0 := by
  intro f urls c c' hc hc'
  rw [processInParallel_eq f c hc urls 0, processInParallel_eq f c' hc' urls 0]

/-- Witness for C6: concurrency 1 versus concurrency 3 on a concrete batch. -/
theorem C6_processInParallel_concurrency_invariant_witness :
    processInParallel (fun u i => (mkFailure u (Nat.repr i), ([] : List FsWrite)))
        ["a", "b", "c", "d"] 1 0
      = processInParallel (fun u i => (mkFailure u (Nat.repr i), ([] : List FsWrite)))
          ["a", "b", "c", "d"] 3 0 :=
  C6_processInParallel_concurrency_invariant (fun u i => (mkFailure u (Nat.repr i), []))
    ["a", "b", "c", "d"] 1 3 (by decide) (by decide)

-- ===== Theorems: per-item pipeline (processUrl) =====

/-- C2 (confirmed): the per-item pipeline execution is a total function (the
embedding has no escaping exception: every thrown error of the source is caught
at the per-item boundary and becomes a resolved value), its result always
carries the input URL, every failing run resolves to exactly the
`{success: false, url, error}` shape, and every successful run resolves to the
populated success shape — so no failure of one item can abort the batch. -/
theorem C2_processUrl_isolates_failures :
    ∀ (o : Oracle) (relTime : String → String) (dir url : String) (opts : CliOptions)
      (now : Nat),
      ((processUrl o relTime dir url opts now).1.url = url)
        ∧ ((processUrl o relTime dir url opts now).1.success = false →
            ∃ msg, (processUrl o relTime dir url opts now).1 = mkFailure url msg)
        ∧ ((processUrl o relTime dir url opts now).1.success = true →
            ∃ card imgs meta auth,
              (processUrl o relTime dir url opts now).1 =
                { success := true, url := url, cardFilename := some card,
                  imageFilenames := imgs, metadataFilename := some meta,
                  author := some auth }) := by
  intro o relTime dir url opts now
  simp only [processUrl]
  split
  · exact ⟨rfl, fun _ => ⟨"Unknown platform", rfl⟩, fun h => by simp [mkFailure] at h⟩
  · split
    · rename_i e heq
      exact ⟨rfl, fun _ => ⟨e, rfl⟩, fun h => by simp [mkFailure] at h⟩
    · rename_i pdv heq
      split
      · rename_i e2 heq2
        exact ⟨rfl, fun _ => ⟨e2, rfl⟩, fun h => by simp [mkFailure] at h⟩
      · split
        · rename_i e3 heq3
          exact ⟨rfl, fun _ => ⟨e3, rfl⟩, fun h => by simp [mkFailure] at h⟩
        · exact ⟨rfl, fun h => by simp at h, fun _ => ⟨_, _, _, _, rfl⟩⟩

/-- Witness for C2: a Twitter URL with a failing scraper resolves to the exact
failure shape. -/
theorem C2_processUrl_isolates_failures_witness :
    ∃ msg, (processUrl oracleFail rtSample "shots" "https://x.com/a/status/1" {} 7).1
      = mkFailure "https://x.com/a/status/1" msg :=
  (C2_processUrl_isolates_failures oracleFail rtSample "shots" "https://x.com/a/status/1"
    {} 7).2.1 (by rfl)

/-- C7 (confirmed): a URL that the classifier maps to no supported platform
yields the failure result with the classification-miss message and performs no
filesystem write at all. -/
theorem C7_unknown_platform_no_writes :
    ∀ (o : Oracle) (relTime : String → String) (dir url : String) (opts : CliOptions)
      (now : Nat),
      detectPlatform url = "unknown" →
      processUrl o relTime dir url opts now = (mkFailure url "Unknown platform", []) := by
  intro o relTime dir url opts now h
  unfold processUrl
  rw [h]
  simp

/-- Witness for C7 at a concrete unclassifiable URL. -/
theorem C7_unknown_platform_no_writes_witness :
    processUrl oracleOk rtSample "shots" "https://news.ycombinator.com/item" {} 7
      = (mkFailure "https://news.ycombinator.com/item" "Unknown platform", []) :=
  C7_unknown_platform_no_writes oracleOk rtSample "shots" "https://news.ycombinator.com/item"
    {} 7 (by rfl)

-- ===== Theorems: image materializer (imageToBase64 / downloadImage) =====

/-- C10 (confirmed): called with an absent/empty URL (the one falsy string),
both materializer operations resolve to the null value immediately, with no
network request and no filesystem write. -/
theorem C10_empty_url_resolves_immediately :
    ∀ (get : String → HttpResp) (fuel : Nat) (filepath : String),
      imageToBase64 get fuel "" = some (none, [])
        ∧ downloadImage get fuel "" filepath = some (none, [], []) := by
  intro get fuel filepath
  constructor
  · rw [imageToBase64]
    simp
  · rw [downloadImage]
    simp

/-- C5 (amended): neither materializer ever produces an unhandled failure (the
embeddings are total, and every error case below resolves to a value); a
network error resolves both to the null value; a non-2xx non-redirect status
resolves downloadImage to null; but imageToBase64 ignores the status code
entirely and resolves to a data URI of whatever body arrived, for any
non-redirect status. -/
theorem C5_materializer_never_fails_caller :
    (∀ (get : String → HttpResp) (fuel : Nat) (url : String), url ≠ "" →
        get url = HttpResp.fail →
        imageToBase64 get fuel url = some (none, [url]))
      ∧ (∀ (get : String → HttpResp) (fuel : Nat) (url filepath : String), url ≠ "" →
          get url = HttpResp.fail →
          downloadImage get fuel url filepath = some (none, [url], []))
      ∧ (∀ (get : String → HttpResp) (fuel : Nat) (url filepath : String)
            (s : Nat) (loc ct : String) (body : List Nat), url ≠ "" →
          get url = HttpResp.resp s loc ct body → isRedirect s loc = false → s ≠ 200 →
          downloadImage get fuel url filepath = some (none, [url], []))
      ∧ (∀ (get : String → HttpResp) (fuel : Nat) (url : String)
            (s : Nat) (loc ct : String) (body : List Nat), url ≠ "" →
          get url = HttpResp.resp s loc ct body → isRedirect s loc = false →
          imageToBase64 get fuel url
            = some (some ("data:" ++ jsOr ct "image/jpeg" ++ ";base64,"
                ++ (⟨base64Encode body⟩ : String)), [url])) := by
  refine ⟨?_, ?_, ?_, ?_⟩
  · intro get fuel url hu hg
    rw [imageToBase64]
    simp [hu, hg]
  · intro get fuel url filepath hu hg
    rw [downloadImage]
    simp [hu, hg]
  · intro get fuel url filepath s loc ct body hu hg hred h200
    rw [downloadImage]
    simp [hu, hg, hred, h200]
  · intro get fuel url s loc ct body hu hg hred
    rw [imageToBase64]
    simp [hu, hg, hred]

/-- Witness for C5 at concrete failing and non-2xx oracles. -/
theorem C5_materializer_never_fails_caller_witness :
    imageToBase64 getFail 3 "http://example.com/a" = some (none, ["http://example.com/a"])
      ∧ downloadImage get404 3 "http://example.com/a" "shots/x.jpg"
          = some (none, ["http://example.com/a"], []) :=
  ⟨C5_materializer_never_fails_caller.1 getFail 3 "http://example.com/a" (by decide) rfl,
    C5_materializer_never_fails_caller.2.2.1 get404 3 "http://example.com/a" "shots/x.jpg"
      404 "" "" [110, 102] (by decide) rfl (by decide) (by decide)⟩

/-- Counterexample for C5 as stated: a 404 (non-2xx, non-redirect) response
does not resolve imageToBase64 to absent — it resolves to a data URI encoding
the 404 body, because imageToBase64 never inspects the status code
(src/unnamed/part_000 lines 181-196 have no status check, unlike
downloadImage line 215). -/
theorem C5_counterexample :
    get404 "http://example.com/a" = HttpResp.resp 404 "" "" [110, 102]
      ∧ imageToBase64 get404 5 "http://example.com/a"
          = some (some "data:image/jpeg;base64,bmY=", ["http://example.com/a"]) := by
  constructor
  · rfl
  · rw [imageToBase64]
    rfl

-- ===== Theorems: filename derivation (generateFilename) =====

/-- C8 (amended): for hyphen-free platform tags (all detectPlatform outputs
are), the artifact base name determines the platform tag, the sanitized URL
fragment, and the millisecond timestamp — so base names differ whenever the
platform tags, the sanitized fragments or the timestamps differ.  The original
claim fails because the base name depends on the URL only through its
sanitized final segment: two different URLs sharing platform, fragment and
timestamp collide (see the counterexample). -/
theorem C8_generateFilename_collision_characterization :
    ∀ (u1 u2 p1 p2 : String) (t1 t2 : Nat), '-' ∉ p1.data → '-' ∉ p2.data →
      generateFilename u1 p1 t1 = generateFilename u2 p2 t2 →
      p1 = p2 ∧ urlFragment u1 = urlFragment u2 ∧ t1 = t2 := by
  intro u1 u2 p1 p2 t1 t2 hp1 hp2 h
  have hd : (generateFilename u1 p1 t1).data = (generateFilename u2 p2 t2).data := by rw [h]
  have hdash : ("-" : String).data = ['-'] := rfl
  simp only [generateFilename, String.data_append, hdash, List.append_assoc,
    List.singleton_append] at hd
  obtain ⟨hp, hrest⟩ := append_hyphen_inj _ _ _ _ hp1 hp2 hd
  obtain ⟨hf, ht⟩ := append_hyphen_inj _ _ _ _
    (urlFragment_no_hyphen u1) (urlFragment_no_hyphen u2) hrest
  have ht2 : (Nat.repr t1).data = (Nat.repr t2).data := List.append_cancel_right ht
  exact ⟨String.ext hp, String.ext hf, natRepr_inj (String.ext ht2)⟩

/-- Witness for C8: the two colliding URLs of the counterexample indeed share
platform tag, sanitized fragment, and timestamp. -/
theorem C8_generateFilename_collision_characterization_witness :
    ("twitter" : String) = "twitter"
      ∧ urlFragment "https://x.com/alice/status/123" = urlFragment "https://x.com/bob/status/123"
      ∧ (1706472000000 : Nat) = 1706472000000 :=
  C8_generateFilename_collision_characterization
    "https://x.com/alice/status/123" "https://x.com/bob/status/123" "twitter" "twitter"
    1706472000000 1706472000000 (by decide) (by decide) (by rfl)

/-- Counterexample for C8 as stated: two different input URLs (same post id
under different account paths) captured in the same millisecond produce the
same base name, because only the sanitized last URL segment enters the name. -/
theorem C8_counterexample :
    ("https://x.com/alice/status/123" : String) ≠ "https://x.com/bob/status/123"
      ∧ generateFilename "https://x.com/alice/status/123" "twitter" 1706472000000
          = generateFilename "https://x.com/bob/status/123" "twitter" 1706472000000 := by
  exact ⟨by decide, by rfl⟩

-- ===== Theorems: inline image caps (C4) =====

theorem collectInline_length_le (toInline : String → Option String) (l : List String) :
    (collectInline toInline l).length ≤ l.length :=
  List.length_filterMap_le _ _

/-- C4 (amended): the Twitter, Twitter-thread and MacRumors extractions cap the
inline (data URI) image list at 4 via `slice(0, 4)`, but the Bluesky and
Mastodon extractions apply no cap — their inline lists are bounded only by the
number of media entries reported by the platform response. -/
theorem C4_inline_image_caps :
    (∀ (toInline : String → Option String) (images : List String),
        (twitterInlineImages toInline images).length ≤ 4)
      ∧ (∀ (toInline : String → Option String) (images : List String),
          (threadInlineImages toInline images).length ≤ 4)
      ∧ (∀ (toInline : String → Option String) (images : List String),
          (macrumorsInlineImages toInline images).length ≤ 4)
      ∧ (∀ (toInline : String → Option String) (post : BskyPost) (url : String),
          (formatBlueskyPost toInline post url).images.length ≤ (bskyImageList post).length)
      ∧ (∀ (toInline : String → Option String) (atts : List MediaAttachment),
          (mastodonInlineImages toInline atts).length ≤ (mastodonImageList atts).length) := by
  refine ⟨?_, ?_, ?_, ?_, ?_⟩
  · intro toInline images
    exact le_trans (collectInline_length_le toInline _) (by simp)
  · intro toInline images
    exact le_trans (collectInline_length_le toInline _) (by simp)
  · intro toInline images
    exact le_trans (collectInline_length_le toInline _) (by simp)
  · intro toInline post url
    exact collectInline_length_le toInline _
  · intro toInline atts
    exact collectInline_length_le toInline _

/-- Counterexample for C4 as stated: a Bluesky post whose embed reports five
images yields five inline data URIs — the loop of formatBlueskyPost
(lines 792-796) applies no cap of 4. -/
theorem C4_counterexample :
    ¬ ((formatBlueskyPost toInlineId bskyPost5 "https://bsky.app/profile/eve/post/1").images.length
        ≤ 4) := by
  decide

theorem bool_eq_false {x : Bool} (h : ¬ x = true) : x = false := by
  cases x
  · rfl
  · exact absurd rfl h

theorem countSubAcc_eq (pat : List Char) :
    ∀ (l : List Char) (acc : Nat), countSubAcc pat acc l = acc + countSubAcc pat 0 l := by
  intro l
  induction l with
  | nil => intro acc; simp [countSubAcc]
  | cons c r ih =>
    intro acc
    by_cases h : pat.isPrefixOf (c :: r) = true
    · simp only [countSubAcc, h, if_true]
      rw [ih (acc + 1), ih 1]
      omega
    · simp only [countSubAcc, bool_eq_false h, Bool.false_eq_true, if_false]
      exact ih acc

theorem countSub_cons (pat : List Char) (c : Char) (r : List Char) :
    countSub pat (c :: r) = (if pat.isPrefixOf (c :: r) then 1 else 0) + countSub pat r := by
  unfold countSub
  by_cases h : pat.isPrefixOf (c :: r) = true
  · simp only [countSubAcc, h, if_true]
    rw [countSubAcc_eq pat r 1]
  · simp only [countSubAcc, bool_eq_false h, Bool.false_eq_true, if_false]
    omega

theorem prefix_append_left {pat l b : List Char} (hlen : pat.length ≤ l.length) :
    pat <+: l ++ b ↔ pat <+: l := by
  constructor
  · intro h
    have h1 : pat = (l ++ b).take pat.length := List.prefix_iff_eq_take.mp h
    rw [List.take_append_eq_append_take] at h1
    have h2 : pat.length - l.length = 0 := by omega
    rw [h2, List.take_zero, List.append_nil] at h1
    rw [h1]
    exact List.take_prefix _ _
  · intro h
    exact h.trans (List.prefix_append l b)

theorem countSub_append_no_span (pat : List Char) :
    ∀ (a b : List Char), noSpan pat a b →
      countSub pat (a ++ b) = countSub pat a + countSub pat b := by
  intro a
  induction a with
  | nil =>
    intro b _
    simp [countSub, countSubAcc]
  | cons c a' ih =>
    intro b hns
    have hns' : noSpan pat a' b := by
      intro k hkl hk0 hcon
      apply hns k hkl hk0
      refine ⟨?_, hcon.2⟩
      exact List.isSuffixOf_iff_suffix.mpr
        ((List.isSuffixOf_iff_suffix.mp hcon.1).trans (List.suffix_cons c a'))
    rw [show (c :: a') ++ b = c :: (a' ++ b) from rfl, countSub_cons, countSub_cons, ih b hns']
    have hpref : pat.isPrefixOf (c :: (a' ++ b)) = pat.isPrefixOf (c :: a') := by
      rw [show (c : Char) :: (a' ++ b) = (c :: a') ++ b from rfl]
      by_cases hlen : pat.length ≤ (c :: a').length
      · by_cases hp : pat <+: c :: a'
        · rw [List.isPrefixOf_iff_prefix.mpr hp,
            List.isPrefixOf_iff_prefix.mpr ((prefix_append_left hlen).mpr hp)]
        · have h1 : pat.isPrefixOf (c :: a') = false := by
            apply bool_eq_false
            intro hx
            exact hp (List.isPrefixOf_iff_prefix.mp hx)
          have h2 : pat.isPrefixOf ((c :: a') ++ b) = false := by
            apply bool_eq_false
            intro hx
            exact hp ((prefix_append_left hlen).mp (List.isPrefixOf_iff_prefix.mp hx))
          rw [h1, h2]
      · push_neg at hlen
        have h1 : pat.isPrefixOf (c :: a') = false := by
          apply bool_eq_false
          intro hx
          have := (List.isPrefixOf_iff_prefix.mp hx).length_le
          omega
        have h2 : pat.isPrefixOf ((c :: a') ++ b) = false := by
          apply bool_eq_false
          intro hx
          have hp : pat <+: (c :: a') ++ b := List.isPrefixOf_iff_prefix.mp hx
          obtain ⟨t, ht⟩ := hp
          have htake : pat.take (c :: a').length = c :: a' := by
            have h3 := congrArg (fun l => List.take (c :: a').length l) ht
            simp only [List.take_append_eq_append_take] at h3
            rw [Nat.sub_eq_zero_of_le (Nat.le_of_lt hlen), List.take_zero,
              List.append_nil] at h3
            simpa using h3
          have hdrop : (pat.drop (c :: a').length).isPrefixOf b = true := by
            apply List.isPrefixOf_iff_prefix.mpr
            have h4 := congrArg (fun l => List.drop (c :: a').length l) ht
            simp only [List.drop_append_eq_append_drop] at h4
            rw [Nat.sub_eq_zero_of_le (Nat.le_of_lt hlen), List.drop_zero] at h4
            exact ⟨t, by simpa using h4⟩
          exact hns (c :: a').length hlen (by simp)
            ⟨by rw [htake]; exact List.isSuffixOf_iff_suffix.mpr (List.suffix_refl _), hdrop⟩
        rw [h1, h2]
    rw [hpref]
    omega

theorem noSpan_of_no_suffix (pat a : List Char)
    (h : ∀ k, k < pat.length → 0 < k → (pat.take k).isSuffixOf a = false) (b : List Char) :
    noSpan pat a b := by
  intro k hkl hk0 hcon
  rw [h k hkl hk0] at hcon
  exact absurd hcon.1 (by simp)

theorem countSub_thread_sample :
    countSub connectorLine.data (renderTwitterThreadCard rtSample sampleThread3).data = 2 := by
  have hdoc : renderTwitterThreadCard rtSample sampleThread3
      = ttM0 ++ (Nat.repr CARD_WIDTH ++ (ttM1a ++ (ttM1b ++
          ((threadTweetBlock rtSample sT0 false ++ (threadTweetBlock rtSample sT1 false ++
            (threadTweetBlock rtSample sT2 true ++ ""))) ++ ttM2)))) := by
    apply String.ext
    simp [renderTwitterThreadCard, ttM1, threadBlocks, mapIdxFrom, joinAll, sampleThread3,
      String.data_append, List.append_assoc]
  rw [hdoc]
  simp only [String.data_append]
  rw [countSub_append_no_span _ _ _ (noSpan_of_no_suffix _ ttM0.data (by decide) _)]
  rw [countSub_append_no_span _ _ _ (noSpan_of_no_suffix _ (Nat.repr CARD_WIDTH).data (by decide) _)]
  rw [countSub_append_no_span _ _ _ (noSpan_of_no_suffix _ ttM1a.data (by decide) _)]
  rw [countSub_append_no_span _ _ _ (noSpan_of_no_suffix _ ttM1b.data (by decide) _)]
  rw [countSub_append_no_span _ _ _
    (noSpan_of_no_suffix _ ((threadTweetBlock rtSample sT0 false).data
      ++ ((threadTweetBlock rtSample sT1 false).data
        ++ ((threadTweetBlock rtSample sT2 true).data ++ ("" : String).data))) (by decide) _)]
  rw [countSub_append_no_span _ _ _
    (noSpan_of_no_suffix _ (threadTweetBlock rtSample sT0 false).data (by decide) _)]
  rw [countSub_append_no_span _ _ _
    (noSpan_of_no_suffix _ (threadTweetBlock rtSample sT1 false).data (by decide) _)]
  rw [countSub_append_no_span _ _ _
    (noSpan_of_no_suffix _ (threadTweetBlock rtSample sT2 true).data (by decide) _)]
  decide

theorem countSub_bento_thread_sample :
    countSub connectorLine.data (renderBentoTwitterThreadCard rtSample sampleThread3).data = 2 := by
  have hdoc : renderBentoTwitterThreadCard rtSample sampleThread3
      = bttM0 ++ (Nat.repr CARD_WIDTH ++ (bttM1a ++ (bttM1b ++
          ((bentoThreadTweetBlock rtSample sT0 false ++ (bentoThreadTweetBlock rtSample sT1 false ++
            (bentoThreadTweetBlock rtSample sT2 true ++ ""))) ++ bttM2)))) := by
    apply String.ext
    simp [renderBentoTwitterThreadCard, bttM1, bentoThreadBlocks, mapIdxFrom, joinAll,
      sampleThread3, String.data_append, List.append_assoc]
  rw [hdoc]
  simp only [String.data_append]
  rw [countSub_append_no_span _ _ _ (noSpan_of_no_suffix _ bttM0.data (by decide) _)]
  rw [countSub_append_no_span _ _ _ (noSpan_of_no_suffix _ (Nat.repr CARD_WIDTH).data (by decide) _)]
  rw [countSub_append_no_span _ _ _ (noSpan_of_no_suffix _ bttM1a.data (by decide) _)]
  rw [countSub_append_no_span _ _ _ (noSpan_of_no_suffix _ bttM1b.data (by decide) _)]
  rw [countSub_append_no_span _ _ _
    (noSpan_of_no_suffix _ ((bentoThreadTweetBlock rtSample sT0 false).data
      ++ ((bentoThreadTweetBlock rtSample sT1 false).data
        ++ ((bentoThreadTweetBlock rtSample sT2 true).data ++ ("" : String).data))) (by decide) _)]
  rw [countSub_append_no_span _ _ _
    (noSpan_of_no_suffix _ (bentoThreadTweetBlock rtSample sT0 false).data (by decide) _)]
  rw [countSub_append_no_span _ _ _
    (noSpan_of_no_suffix _ (bentoThreadTweetBlock rtSample sT1 false).data (by decide) _)]
  rw [countSub_append_no_span _ _ _
    (noSpan_of_no_suffix _ (bentoThreadTweetBlock rtSample sT2 true).data (by decide) _)]
  decide

/-- C9: in both thread renderers the document is the static skeleton around the
tweet blocks taken from the payload in order (one block per tweet, block `i`
taken from tweet `i`); every non-last block carries the connector element
between its avatar part and its content part while the last block omits it;
and on the three-tweet sample payload both rendered documents contain the
connector element exactly twice. -/
theorem C9_thread_blocks_and_connectors :
    (∀ (relTime : String → String) (d : ThreadData),
        renderTwitterThreadCard relTime d
          = ttM0 ++ Nat.repr CARD_WIDTH ++ ttM1 ++ joinAll (threadBlocks relTime d) ++ ttM2
      ∧ renderBentoTwitterThreadCard relTime d
          = bttM0 ++ Nat.repr CARD_WIDTH ++ bttM1 ++ joinAll (bentoThreadBlocks relTime d) ++ bttM2
      ∧ (threadBlocks relTime d).length = d.tweets.length
      ∧ (bentoThreadBlocks relTime d).length = d.tweets.length
      ∧ (∀ i, (threadBlocks relTime d)[i]?
          = (d.tweets[i]?).map
              (fun t => threadTweetBlock relTime t (decide (i = d.tweets.length - 1))))
      ∧ (∀ i, (bentoThreadBlocks relTime d)[i]?
          = (d.tweets[i]?).map
              (fun t => bentoThreadTweetBlock relTime t (decide (i = d.tweets.length - 1)))))
  ∧ (∀ (relTime : String → String) (t : ThreadTweet),
        threadTweetBlock relTime t false
          = threadTweetA t ++ connectorLine ++ threadTweetB relTime t
      ∧ threadTweetBlock relTime t true = threadTweetA t ++ threadTweetB relTime t
      ∧ bentoThreadTweetBlock relTime t false
          = bentoThreadTweetA t ++ connectorLine ++ bentoThreadTweetB relTime t
      ∧ bentoThreadTweetBlock relTime t true
          = bentoThreadTweetA t ++ bentoThreadTweetB relTime t)
  ∧ countSub connectorLine.data (renderTwitterThreadCard rtSample sampleThread3).data = 2
  ∧ countSub connectorLine.data (renderBentoTwitterThreadCard rtSample sampleThread3).data = 2 := by
  refine ⟨?_, ?_, countSub_thread_sample, countSub_bento_thread_sample⟩
  · intro relTime d
    refine ⟨rfl, rfl, mapIdxFrom_length _ _ _, mapIdxFrom_length _ _ _, ?_, ?_⟩
    · intro i
      rw [threadBlocks, mapIdxFrom_getElem?]
      simp
    · intro i
      rw [bentoThreadBlocks, mapIdxFrom_getElem?]
      simp
  · intro relTime t
    refine ⟨?_, ?_, ?_, ?_⟩
    all_goals
      apply String.ext
      simp [threadTweetBlock, threadTweetA, threadTweetB, bentoThreadTweetBlock,
        bentoThreadTweetA, bentoThreadTweetB, connectorLine, String.data_append,
        List.append_assoc]

